import Mathlib

/-!
Shallow embedding of the Telegram thumbnail/cover bot worker
(src/thumbbot/src/index.js).  The source file contains two concatenated
revisions of the worker; the later revision (the one with USER_STORE, the
awaiting_cover_name flow and the save_default / save_with_name callbacks)
is the authoritative one and is what is embedded here.

JavaScript strings are modelled as Lean `String`; the handful of string
operations the worker uses (trim, split on a single space, startsWith,
replace of a leading prefix) are re-implemented structurally over
`List Char` so that they evaluate inside the kernel.  The two KV
namespaces (covers, stats) are modelled as functions from the string key
`String(userId)` to an optional record; a JavaScript object used as a
name-to-file_id mapping is modelled as an insertion-ordered association
list (JavaScript object semantics for the non-integer-like keys the bot
uses).  Outbound Telegram API calls are collected as a list of `Effect`
values; inbound results of query-like calls (getFile, the paste services,
the message id allocated for a sent message) are supplied by a `World`
oracle, mirroring the fact that the worker awaits those results and
branches on them.
-/

namespace ThumbBot

/-- Characters the worker's `text.trim()` removes (ordinary ASCII
whitespace; the exotic Unicode whitespace JavaScript also trims never
appears in the inputs any claim is about). -/
def isWS (c : Char) : Bool := c == ' ' || c == '\t' || c == '\n' || c == '\r'

/-- `trim` over a character list: drop whitespace from both ends. -/
def trimL (l : List Char) : List Char :=
  ((l.dropWhile isWS).reverse.dropWhile isWS).reverse

/-- JavaScript `String.prototype.trim`. -/
def jsTrim (s : String) : String := String.mk (trimL s.data)

/-- Auxiliary splitter: JavaScript `split(' ')` cuts at every single
space character, keeping empty pieces. -/
def splitSpAux : List Char → List Char → List (List Char)
  | [], acc => [acc.reverse]
  | c :: rest, acc =>
    if c == ' ' then acc.reverse :: splitSpAux rest []
    else splitSpAux rest (c :: acc)

/-- JavaScript `text.split(' ')`. -/
def jsSplitSpace (s : String) : List String :=
  (splitSpAux s.data []).map String.mk

/-- Boolean prefix test over character lists (structural, so the kernel
can evaluate it even when the tail of the second list is symbolic). -/
def isPre : List Char → List Char → Bool
  | [], _ => true
  | _ :: _, [] => false
  | a :: as, b :: bs => a == b && isPre as bs

/-- JavaScript `action.startsWith(p)`. -/
def startsWithStr (s p : String) : Bool := isPre p.data s.data

/-- JavaScript `action.replace(p, '')` in the situations the worker uses
it: the action is already known to start with `p`, and `replace` removes
the first (leftmost, hence leading) occurrence. -/
def dropPre (s p : String) : String := String.mk (s.data.drop p.data.length)

/-- JavaScript truthiness of an optional string (`undefined` and the
empty string are falsy). -/
def truthyStr : Option String → Bool
  | none => false
  | some s => s != ""

/-! ## Data model -/

/-- One element of a Telegram photo-size array (also used for a video
thumbnail).  Only the fields the worker reads are modelled. -/
structure PhotoSize where
  file_id : String
  width : Nat := 0
  height : Nat := 0
  file_size : Option Nat := none
deriving DecidableEq

/-- A Telegram video attachment, with the fields the worker reads. -/
structure Video where
  file_id : String
  file_size : Option Nat := none
  duration : Option Nat := none
  width : Nat := 0
  height : Nat := 0
  mime_type : Option String := none
  file_name : Option String := none
  cover : Option (List PhotoSize) := none
  thumbnail : Option PhotoSize := none
deriving DecidableEq

/-- The replied-to message, as far as the worker inspects it
(`message.reply_to_message`): its photo array, video and caption. -/
structure ReplyMsg where
  message_id : Nat := 0
  photo : Option (List PhotoSize) := none
  video : Option Video := none
  caption : Option String := none
deriving DecidableEq

/-- An inbound message event. -/
structure Message where
  message_id : Nat
  chat_id : Nat
  from_id : Nat
  text : Option String := none
  video : Option Video := none
  photo : Option (List PhotoSize) := none
  reply_to_message : Option ReplyMsg := none
deriving DecidableEq

/-- The message an inline keyboard was attached to, as carried inside a
callback query. -/
structure CbMsg where
  message_id : Nat
  chat_id : Nat
  reply_to_message : Option ReplyMsg := none
deriving DecidableEq

/-- An inbound button-press event (`callback_query`). -/
structure CallbackQuery where
  id : String
  from_id : Nat
  data : String
  message : CbMsg
deriving DecidableEq

/-- One decoded inbound update: either a callback query or a message
(the dispatcher checks `callback_query` first). -/
inductive Update
  | callback (cb : CallbackQuery)
  | message (m : Message)
deriving DecidableEq

/-- A user's saved-covers object: a JavaScript object used as a mapping
from cover name to file_id, modelled as an insertion-ordered association
list (set of an existing key updates in place, set of a new key
appends). -/
abbrev CoverRecord := List (String × String)

/-- JavaScript `obj[k]` on a cover record. -/
def objGet (r : CoverRecord) (k : String) : Option String :=
  (r.find? (fun p => p.1 = k)).map (fun p => p.2)

/-- JavaScript `obj[k] = v` on a cover record. -/
def objSet (r : CoverRecord) (k v : String) : CoverRecord :=
  if (r.find? (fun p => p.1 = k)).isSome then
    r.map (fun p => if p.1 = k then (k, v) else p)
  else
    r ++ [(k, v)]

/-- JavaScript `delete obj[k]` on a cover record. -/
def objDelete (r : CoverRecord) (k : String) : CoverRecord :=
  r.filter (fun p => p.1 ≠ k)

/-- JavaScript `Object.keys`. -/
def objKeys (r : CoverRecord) : List String := r.map (fun p => p.1)

/-- The per-user usage counters stored in STATS_KV. -/
structure Stats where
  videos_processed : Nat
  covers_changed : Nat
deriving DecidableEq

/-- The transient in-memory flow state (`userState` map entries). -/
inductive FlowState
  | awaitingCoverName (cover_file_id : String) (message_id : Nat)
  | awaitingNewCover (video_file_id : String)
      (original_caption : Option String) (message_id : Nat)
deriving DecidableEq

/-- The whole mutable state the worker touches: the two KV namespaces
(keyed by `String(userId)`), the USER_STORE key set, and the in-memory
`userState` map (keyed by the numeric user id). -/
structure BotState where
  covers : String → Option CoverRecord
  stats : String → Option Stats
  users : List String
  userState : Nat → Option FlowState

/-- The reserved default cover name. -/
def DEFAULT_COVER_NAME : String := "__default__"

/-- `String(userId)`: the key both KV namespaces are indexed by. -/
def ukey (u : Nat) : String := toString u

def getCovers (s : BotState) (u : Nat) : CoverRecord :=
  (s.covers (ukey u)).getD []

def getStats (s : BotState) (u : Nat) : Stats :=
  (s.stats (ukey u)).getD ⟨0, 0⟩

def putCovers (s : BotState) (u : Nat) (r : CoverRecord) : BotState :=
  { s with covers := fun k => if k = ukey u then some r else s.covers k }

def putStats (s : BotState) (u : Nat) (st : Stats) : BotState :=
  { s with stats := fun k => if k = ukey u then some st else s.stats k }

/-- `USER_STORE.put(String(userId), "1")`: at the key-set level this
adds the key if it is not already present. -/
def putUserStore (s : BotState) (u : Nat) : BotState :=
  { s with users := if (ukey u) ∈ s.users then s.users else s.users ++ [ukey u] }

def setUState (s : BotState) (u : Nat) (f : FlowState) : BotState :=
  { s with userState := fun k => if k = u then some f else s.userState k }

def delUState (s : BotState) (u : Nat) : BotState :=
  { s with userState := fun k => if k = u then none else s.userState k }

/-! ## Outbound effects and the world oracle -/

/-- An inline-keyboard button: display text plus either a callback token
or a navigation URL. -/
inductive BtnAct
  | cb (data : String)
  | link (url : String)
deriving DecidableEq

structure Button where
  text : String
  act : BtnAct
deriving DecidableEq

/-- The Telegram `link_preview_options` object the /start branch passes. -/
structure LinkPreview where
  is_disabled : Bool
  url : String
  prefer_large_media : Bool
  show_above_text : Bool
deriving DecidableEq

/-- Options of sendMessage / editMessageText as used by the worker. -/
structure MsgOpts where
  parse_mode : Option String := none
  reply_to_message_id : Option Nat := none
  reply_markup : Option (List (List Button)) := none
  link_preview : Option LinkPreview := none
deriving DecidableEq

/-- A photo payload: either a Telegram file_id string or raw bytes
downloaded from a URL (a Blob in the source). -/
inductive PhotoPayload
  | fileId (id : String)
  | fromUrl (url : String)
deriving DecidableEq

/-- One outbound Messaging Client call.  Query-like calls whose results
the worker branches on (getFile, the paste services, the id of a sent
message) are answered by the `World` oracle instead and are not recorded
here; no claim counts them. -/
inductive Effect
  | sendMessage (chatId : Nat) (text : String) (opts : MsgOpts)
  | editMessageText (chatId : Nat) (messageId : Nat) (text : String) (opts : MsgOpts)
  | deleteMessage (chatId : Nat) (messageId : Nat)
  | sendPhoto (chatId : Nat) (photo : PhotoPayload) (caption : Option String)
      (parseMode : Option String) (replyTo : Option Nat)
  | sendVideo (chatId : Nat) (video : String) (cover : Option String)
      (caption : Option String)
  | answerCallbackQuery (cbId : String) (text : Option String) (showAlert : Bool)
deriving DecidableEq

/-- Results of the awaited external calls a handler run can make. -/
structure World where
  botToken : String
  getFile : String → Option String
  pastePrimary : Option String
  pasteFallback : Option String
  workingMsgId : Nat

/-! ## Message texts (verbatim from the source, second revision) -/

def startText : String :=
  "<blockquote expandable><b>Hello! I am üî• Blaze thumbnail/cover changer bot. Send me a video to get started.</b>\n\n" ++
  "Commands:\n" ++
  "/save_cover [name] ‚Äî Reply to an image to save it. If no name is given, it saves as your default.\n" ++
  "/covers ‚Äî Manage your saved covers.\n" ++
  "/stats ‚Äî View your usage statistics." ++
  "</blockquote>"

def startOpts : MsgOpts :=
  { parse_mode := some ("HTML"),
    link_preview := some ⟨false, "https://iili.io/K2LIM79.md.jpg", true, true⟩,
    reply_markup := some [[⟨"Update Channel", BtnAct.link ("https://t.me/Blaze_Updatez")⟩]] }

def coverSavedText (name : String) : String :=
  "‚úÖ Cover saved as \"" ++ name ++ "\" successfully!"

def defaultSavedText : String := "‚úÖ Default cover saved successfully!"

def saveCoverUsageText : String :=
  "‚ùó To use <b>/save_cover</b>, reply to an image with the command.\n\n" ++
  "Example: <code>/save_cover mycover</code>"

def noSavedCoversText : String := "You don\x27t have any saved covers."

def statsText (v c : Nat) : String :=
  "**Your Stats:**\n- Videos Processed: " ++ toString v ++
  "\n- Covers Changed: " ++ toString c

def usersxText (n : Nat) : String :=
  "üìä <b>Total Unique Users:</b> " ++ toString n

/-- Display name of a cover: the reserved default name renders as
Default. -/
def coverDisplay (n : String) : String :=
  if n = DEFAULT_COVER_NAME then "Default" else n

def yourCoverCaption (n : String) : String :=
  "Your \"" ++ coverDisplay n ++ "\" cover."

def deletedCoverText (n : String) : String :=
  "üóëÔ∏è Cover \"" ++ coverDisplay n ++ "\" has been deleted."

def applyingCoverText (n : String) : String :=
  "Applying the \"" ++ coverDisplay n ++ "\" cover..."

def noCoversAlertText : String :=
  "You have no covers saved!\n\nReply to an image with the command /save_cover [name] to save one."

def coverDeletedAlertText : String := "This cover seems to have been deleted."

/-- The row of buttons `/covers` renders for one saved cover. -/
def coversMenuRow (name : String) : List Button :=
  [⟨"üñºÔ∏è " ++ coverDisplay name, BtnAct.cb ("send_cover_" ++ name)⟩,
   ⟨"üóëÔ∏è Delete", BtnAct.cb ("confirm_delete_" ++ name)⟩]

/-- The four-row menu offered for an inbound video. -/
def videoMenuButtons : List (List Button) :=
  [[⟨"Extract Metadata", BtnAct.cb ("extract_metadata")⟩],
   [⟨"Extract Cover & Thumbnail", BtnAct.cb ("extract_media")⟩],
   [⟨"Set New Cover (for this video)", BtnAct.cb ("set_cover")⟩],
   [⟨"Use Saved Cover", BtnAct.cb ("use_saved_cover")⟩]]

/-- The two-row menu offered for an inbound photo outside any flow. -/
def imageMenuButtons : List (List Button) :=
  [[⟨"üîó Paste", BtnAct.cb ("paste_image")⟩],
   [⟨"üíæ Save Cover", BtnAct.cb ("save_cover")⟩]]

/-- Last element of a photo-size array, the worker expression
photo[photo.length - 1]; Telegram photo arrays are non-empty, so the
fallback value is never reached on real inputs. -/
def lastPhoto (l : List PhotoSize) : PhotoSize :=
  l.getLastD ⟨"", 0, 0, none⟩

/-- Decimal rendering with two fractional digits of `num / den`, the
worker's `x.toFixed(2)` (exact rational rounding, half away from zero;
the binary floating-point value JavaScript formats can differ in the
last digit, and no claim depends on this text). -/
def fixed2Of (num den : Nat) : String :=
  let cents := (num * 100 * 2 + den) / (2 * den)
  toString (cents / 100) ++ "." ++
    (if cents % 100 < 10 then "0" else "") ++ toString (cents % 100)

/-- The formatted duration string of extract_metadata. -/
def formatDuration (ds : Nat) : String :=
  (if ds / 3600 > 0 then toString (ds / 3600) ++ " h " else "") ++
  (if (ds % 3600) / 60 > 0 then toString ((ds % 3600) / 60) ++ " min " else "") ++
  toString (ds % 60) ++ " s"

/-- The metadata text of extract_metadata. -/
def metadataText (v : Video) : String :=
  "üóí **General**\n" ++
  "**Complete name:** `" ++ (v.file_name.getD ("N/A")) ++ "`\n" ++
  "**File size:** `" ++ fixed2Of (v.file_size.getD 0) (1024 * 1024) ++ " MiB`\n" ++
  "**Duration:** `" ++ formatDuration (v.duration.getD 0) ++ "`\n\n" ++
  "üéû **Video**\n" ++
  "**Width:** `" ++ toString v.width ++ " pixels`\n" ++
  "**Height:** `" ++ toString v.height ++ " pixels`\n" ++
  "**MIME Type:** `" ++ (v.mime_type.getD ("N/A")) ++ "`"

def coverMediaCaption (c : PhotoSize) : String :=
  "**Cover**\n\n**Resolution:** `" ++ toString c.width ++ "x" ++ toString c.height ++
  "`\n**File Size:** `" ++ fixed2Of (c.file_size.getD 0) 1024 ++ "` KB"

def thumbMediaCaption (t : PhotoSize) : String :=
  "**Thumbnail**\n\n**Resolution:** `" ++ toString t.width ++ "x" ++ toString t.height ++
  "`\n**File Size:** `" ++ fixed2Of (t.file_size.getD 0) 1024 ++ "` KB"

/-! ## handleMessage -/

/-- `args[0] || DEFAULT_COVER_NAME` (absent and empty both fall back). -/
def saveName (args : List String) : String :=
  match args.head? with
  | none => DEFAULT_COVER_NAME
  | some a => if a = "" then DEFAULT_COVER_NAME else a

/-- The save-cover branch body (source lines 551-566): read-modify-write
of the user's cover record plus the confirmation message. -/
def doSaveCover (msg : Message) (s : BotState) (name cover_file_id : String) :
    BotState × List Effect :=
  let userCovers := getCovers s msg.from_id
  let s1 := putCovers s msg.from_id (objSet userCovers name cover_file_id)
  let confirmationText :=
    if name = DEFAULT_COVER_NAME then defaultSavedText else coverSavedText name
  (s1, [Effect.sendMessage msg.chat_id confirmationText
          { reply_to_message_id := some msg.message_id }])

/-- The message handler (source lines 502-640). -/
def handleMessage (w : World) (msg : Message) (s : BotState) :
    BotState × List Effect :=
  let chatId := msg.chat_id
  let userId := msg.from_id
  if truthyStr msg.text then
    let text := jsTrim (msg.text.getD "")
    let parts := jsSplitSpace text
    let command := parts.headD ""
    let args := parts.tail
    match s.userState userId with
    | some (FlowState.awaitingCoverName cover_file_id message_id) =>
      -- awaiting_cover_name completion takes priority over command parsing
      let name := text
      let userCovers := getCovers s userId
      let s1 := putCovers s userId (objSet userCovers name cover_file_id)
      let s2 := delUState s1 userId
      (s2, [Effect.editMessageText chatId message_id (coverSavedText name) {}])
    | _ =>
      if command = "/start" then
        (putUserStore s userId, [Effect.sendMessage chatId startText startOpts])
      else if command = "/save_cover" then
        match msg.reply_to_message with
        | some r =>
          match r.photo with
          | some photoList =>
            doSaveCover msg s (saveName args) (lastPhoto photoList).file_id
          | none =>
            (s, [Effect.sendMessage chatId saveCoverUsageText
                  { parse_mode := some ("HTML") }])
        | none =>
          (s, [Effect.sendMessage chatId saveCoverUsageText
                { parse_mode := some ("HTML") }])
      else if command = "/covers" then
        let userCovers := getCovers s userId
        let coverNames := objKeys userCovers
        if coverNames.length = 0 then
          (s, [Effect.sendMessage chatId noSavedCoversText
                { reply_to_message_id := some msg.message_id }])
        else
          (s, [Effect.sendMessage chatId ("Manage your saved covers:")
                { reply_to_message_id := some msg.message_id,
                  reply_markup := some (coverNames.map coversMenuRow) }])
      else if command = "/stats" then
        let st := getStats s userId
        (s, [Effect.sendMessage chatId (statsText st.videos_processed st.covers_changed)
              { parse_mode := some ("Markdown"),
                reply_to_message_id := some msg.message_id }])
      else if command = "/usersx" then
        (s, [Effect.sendMessage chatId (usersxText s.users.length)
              { parse_mode := some ("HTML") }])
      else
        (s, [])
  else if msg.video.isSome then
    let st := getStats s userId
    let s1 := putStats s userId ⟨st.videos_processed + 1, st.covers_changed⟩
    (s1, [Effect.sendMessage chatId ("What would you like to do with this video?")
           { reply_to_message_id := some msg.message_id,
             reply_markup := some videoMenuButtons }])
  else if msg.photo.isSome then
    match s.userState userId with
    | some (FlowState.awaitingNewCover video_file_id original_caption message_id) =>
      let new_cover_file_id := (lastPhoto (msg.photo.getD [])).file_id
      let st := getStats s userId
      let s1 := putStats s userId ⟨st.videos_processed, st.covers_changed + 1⟩
      let s2 := delUState s1 userId
      (s2, [Effect.deleteMessage chatId msg.message_id,
            Effect.deleteMessage chatId message_id,
            Effect.sendMessage chatId ("Applying new cover and sending video...") {},
            Effect.sendVideo chatId video_file_id (some new_cover_file_id) original_caption,
            Effect.deleteMessage chatId w.workingMsgId])
    | _ =>
      (s, [Effect.sendMessage chatId ("What would you like to do with this image?")
            { reply_to_message_id := some msg.message_id,
              reply_markup := some imageMenuButtons }])
  else
    (s, [])

/-! ## handleCallback -/

/-- The effects of the image-paste attempt after the raw bytes were
downloaded: primary host, then the documented fallback host, then the
failure report (source lines 703-731). -/
def pasteEffects (w : World) (chatId messageId : Nat) : List Effect :=
  match w.pastePrimary with
  | some url =>
    [Effect.editMessageText chatId messageId ("Here is your link:\n" ++ url) {}]
  | none =>
    Effect.editMessageText chatId messageId
        ("Primary paste service failed, trying fallback...") {} ::
    match w.pasteFallback with
    | some url =>
      [Effect.editMessageText chatId messageId ("Here is your link:\n" ++ url) {}]
    | none =>
      [Effect.editMessageText chatId messageId
        ("Failed to paste the image using both primary and fallback services.") {}]

/-- The confirm-delete keyboard. -/
def confirmDeleteButtons (coverName : String) : List (List Button) :=
  [[⟨"Yes, delete \"" ++ coverDisplay coverName ++ "\"",
     BtnAct.cb ("delete_cover_" ++ coverName)⟩,
    ⟨"Cancel", BtnAct.cb ("cancel_delete")⟩]]

/-- The save-cover choice keyboard. -/
def saveChoiceButtons : List (List Button) :=
  [[⟨"Save as Default", BtnAct.cb ("save_default")⟩],
   [⟨"Save with Name", BtnAct.cb ("save_with_name")⟩]]

/-- The effects of the extract_media branch after the initial
acknowledgement and the Extracting media... edit (source lines
786-813). -/
def extractMediaRest (w : World) (chatId messageId videoMessageId : Nat)
    (v : Video) : List Effect :=
  let coverPart : List Effect :=
    match v.cover with
    | some l =>
      if l.length > 0 then
        [Effect.sendPhoto chatId (PhotoPayload.fileId (lastPhoto l).file_id)
          (some (coverMediaCaption (lastPhoto l))) (some ("Markdown")) (some videoMessageId)]
      else []
    | none => []
  let thumbPart : List Effect :=
    match v.thumbnail with
    | some th =>
      match w.getFile th.file_id with
      | some filePath =>
        [Effect.sendPhoto chatId
          (PhotoPayload.fromUrl ("https://api.telegram.org/file/bot" ++ w.botToken ++ "/" ++ filePath))
          (some (thumbMediaCaption th)) (some ("Markdown")) (some videoMessageId)]
      | none => []
    | none => []
  let foundMedia := coverPart ≠ [] || thumbPart ≠ []
  coverPart ++ thumbPart ++
    (if foundMedia then [Effect.deleteMessage chatId messageId]
     else [Effect.editMessageText chatId messageId
             ("This video does not have a cover or a thumbnail.") {}])

/-- The callback handler (source lines 643-863). -/
def handleCallback (w : World) (cb : CallbackQuery) (s : BotState) :
    BotState × List Effect :=
  let action := cb.data
  let message := cb.message
  let chatId := message.chat_id
  let userId := cb.from_id
  let ack : Effect := Effect.answerCallbackQuery cb.id none false
  if startsWithStr action ("send_cover_") || startsWithStr action ("confirm_delete_") ||
     startsWithStr action ("delete_cover_") || action = "cancel_delete" then
    -- /covers management family (no replied-to message required)
    if startsWithStr action ("send_cover_") then
      let coverName := dropPre action ("send_cover_")
      let userCovers := getCovers s userId
      let fileId := objGet userCovers coverName
      if truthyStr fileId then
        (s, [Effect.sendPhoto chatId (PhotoPayload.fileId (fileId.getD ""))
               (some (yourCoverCaption coverName)) none none, ack])
      else
        (s, [ack])
    else if startsWithStr action ("confirm_delete_") then
      let coverName := dropPre action ("confirm_delete_")
      (s, [Effect.editMessageText chatId message.message_id
             ("Are you sure you want to delete this cover?")
             { reply_markup := some (confirmDeleteButtons coverName) }, ack])
    else if startsWithStr action ("delete_cover_") then
      let coverName := dropPre action ("delete_cover_")
      let userCovers := getCovers s userId
      if truthyStr (objGet userCovers coverName) then
        let s1 := putCovers s userId (objDelete userCovers coverName)
        (s1, [Effect.editMessageText chatId message.message_id
                (deletedCoverText coverName) {}, ack])
      else
        (s, [Effect.editMessageText chatId message.message_id
               ("Could not find that cover.") {}, ack])
    else
      (s, [Effect.editMessageText chatId message.message_id ("Deletion cancelled.") {}, ack])
  else if action = "paste_image" || action = "save_cover" ||
          action = "save_default" || action = "save_with_name" then
    -- image-flow family (requires a replied-to photo)
    match message.reply_to_message with
    | none =>
      (s, [ack, Effect.editMessageText chatId message.message_id
             ("Sorry, the original photo could not be found.") {}])
    | some r =>
      match r.photo with
      | none =>
        (s, [ack, Effect.editMessageText chatId message.message_id
               ("Sorry, the original photo could not be found.") {}])
      | some photoList =>
        let file_id := (lastPhoto photoList).file_id
        if action = "paste_image" then
          (s, Effect.editMessageText chatId message.message_id
                ("üîó Pasting image, please wait...") {} ::
              (match w.getFile file_id with
               | some _ => pasteEffects w chatId message.message_id
               | none => []) ++ [ack])
        else if action = "save_cover" then
          (s, [Effect.editMessageText chatId message.message_id
                 ("How would you like to save this cover?")
                 { reply_markup := some saveChoiceButtons }, ack])
        else if action = "save_default" then
          let userCovers := getCovers s userId
          let s1 := putCovers s userId (objSet userCovers DEFAULT_COVER_NAME file_id)
          (s1, [Effect.editMessageText chatId message.message_id defaultSavedText {}, ack])
        else
          -- save_with_name
          let s1 := setUState s userId
            (FlowState.awaitingCoverName file_id message.message_id)
          (s1, [Effect.editMessageText chatId message.message_id
                  ("Please reply with a name for this cover.") {}, ack])
  else
    -- video-flow family (requires a replied-to video)
    match message.reply_to_message with
    | none =>
      (s, [ack, Effect.editMessageText chatId message.message_id
             ("Sorry, the original video could not be found. Please send a new one.") {}])
    | some r =>
      match r.video with
      | none =>
        (s, [ack, Effect.editMessageText chatId message.message_id
               ("Sorry, the original video could not be found. Please send a new one.") {}])
      | some video =>
        let original_caption := r.caption
        let videoMessageId := r.message_id
        if action = "extract_metadata" then
          (s, [ack, Effect.editMessageText chatId message.message_id
                 (metadataText video) { parse_mode := some ("Markdown") }])
        else if action = "extract_media" then
          (s, ack ::
              Effect.editMessageText chatId message.message_id ("Extracting media...") {} ::
              extractMediaRest w chatId message.message_id videoMessageId video)
        else if action = "set_cover" then
          let s1 := setUState s userId
            (FlowState.awaitingNewCover video.file_id original_caption message.message_id)
          (s1, [ack, Effect.editMessageText chatId message.message_id
                  ("Please send me the new image you would like to use as a cover.") {}])
        else if action = "use_saved_cover" then
          let userCovers := getCovers s userId
          match objKeys userCovers with
          | [] =>
            (s, [Effect.answerCallbackQuery cb.id (some noCoversAlertText) true])
          | [n] =>
            let saved := objGet userCovers n
            let st := getStats s userId
            let s1 := putStats s userId ⟨st.videos_processed, st.covers_changed + 1⟩
            (s1, [ack,
                  Effect.editMessageText chatId message.message_id
                    ("Applying your saved cover...") {},
                  Effect.sendVideo chatId video.file_id saved original_caption,
                  Effect.deleteMessage chatId message.message_id])
          | names =>
            let buttons := names.map
              (fun name => [(⟨coverDisplay name, BtnAct.cb ("apply_cover_" ++ name)⟩ : Button)])
            (s, [Effect.editMessageText chatId message.message_id
                   ("Please choose a cover to apply:")
                   { reply_markup := some buttons }, ack])
        else if startsWithStr action ("apply_cover_") then
          let coverName := dropPre action ("apply_cover_")
          let userCovers := getCovers s userId
          let saved := objGet userCovers coverName
          if truthyStr saved then
            let st := getStats s userId
            let s1 := putStats s userId ⟨st.videos_processed, st.covers_changed + 1⟩
            (s1, [ack,
                  Effect.editMessageText chatId message.message_id
                    (applyingCoverText coverName) {},
                  Effect.sendVideo chatId video.file_id saved original_caption,
                  Effect.deleteMessage chatId message.message_id])
          else
            (s, [Effect.answerCallbackQuery cb.id (some coverDeletedAlertText) true])
        else
          (s, [])

/-- The dispatcher (source lines 493-499). -/
def handleUpdate (w : World) (u : Update) (s : BotState) : BotState × List Effect :=
  match u with
  | Update.callback cb => handleCallback w cb s
  | Update.message m => handleMessage w m s

/-! ## Derived notions used by the claims -/

/-- Whether an effect is an acknowledgement of callback id `cid`. -/
def isAckOf (cid : String) : Effect → Bool
  | Effect.answerCallbackQuery c _ _ => c == cid
  | _ => false

/-- Number of acknowledgements of callback id `cid` in an effect list. -/
def ackCount (effs : List Effect) (cid : String) : Nat :=
  effs.countP (isAckOf cid)

/-- The action tokens the callback handler has a branch for: exactly the
guards of its dispatch chain. -/
def recognizedAction (a : String) : Bool :=
  startsWithStr a ("send_cover_") || startsWithStr a ("confirm_delete_") ||
  startsWithStr a ("delete_cover_") || a == "cancel_delete" ||
  a == "paste_image" || a == "save_cover" || a == "save_default" ||
  a == "save_with_name" ||
  a == "extract_metadata" || a == "extract_media" || a == "set_cover" ||
  a == "use_saved_cover" || startsWithStr a ("apply_cover_")

/-- Whether the callback's message replies to a video-bearing message. -/
def hasVideoReply (m : CbMsg) : Bool :=
  match m.reply_to_message with
  | some r => r.video.isSome
  | none => false

/-- Whether the callback's message replies to a photo-bearing message. -/
def photoReply : Option ReplyMsg → Bool
  | some r => r.photo.isSome
  | none => false

/-- Whether a flow-state entry is the awaiting-a-cover-name tag. -/
def isAwaitName : Option FlowState → Bool
  | some (FlowState.awaitingCoverName _ _) => true
  | _ => false

/-- Sequential processing of a list of messages (each handled to
completion before the next starts, the no-interleaving scenario). -/
def runMsgs (w : World) (ms : List Message) (s : BotState) : BotState :=
  ms.foldl (fun st m => (handleMessage w m st).1) s

/-- Sequential processing of a list of callbacks. -/
def runCbs (w : World) (cbs : List CallbackQuery) (s : BotState) : BotState :=
  cbs.foldl (fun st cb => (handleCallback w cb st).1) s

/-- An action token that applies a saved cover from record `r`: either
the single-cover use_saved_cover path or apply_cover on a name whose
entry is present (truthy). -/
def applyPred (r : CoverRecord) (a : String) : Prop :=
  (a = "use_saved_cover" ∧ ∃ n, objKeys r = [n]) ∨
  (∃ n, a = "apply_cover_" ++ n ∧ truthyStr (objGet r n) = true)

/-- The user an update is from. -/
def updUser : Update → Nat
  | Update.callback cb => cb.from_id
  | Update.message m => m.from_id

/-- Which cover name (if any) an update targets for mutation of the
Cover Record, given the current state: the four mutating operations are
the save-cover command, the awaiting-name completion, the save_default
callback and the delete_cover callback. -/
def covMut (s : BotState) (e : Update) : Option String :=
  match e with
  | Update.message m =>
    if truthyStr m.text then
      let text := jsTrim (m.text.getD "")
      match s.userState m.from_id with
      | some (FlowState.awaitingCoverName _ _) => some text
      | _ =>
        let parts := jsSplitSpace text
        if parts.headD "" = "/save_cover" then
          if photoReply m.reply_to_message then some (saveName parts.tail) else none
        else none
    else none
  | Update.callback cb =>
    if startsWithStr cb.data ("delete_cover_") then
      some (dropPre cb.data ("delete_cover_"))
    else if cb.data = "save_default" then
      if photoReply cb.message.reply_to_message then some DEFAULT_COVER_NAME else none
    else none

/-! ## String-prefix machinery -/

theorem isPre_append_self (p t : List Char) : isPre p (p ++ t) = true := by
  induction p with
  | nil => rfl
  | cons a as ih => simp [isPre, ih]

theorem startsWithStr_append_self (p n : String) : startsWithStr (p ++ n) p = true := by
  have h := isPre_append_self p.data n.data
  simpa [startsWithStr, String.data_append] using h

theorem dropPre_append (p n : String) : dropPre (p ++ n) p = n := by
  simp [dropPre, String.data_append]

theorem head?_of_sw (a p : String) (c : Char) (h : startsWithStr a p = true)
    (hp : p.data.head? = some c) : a.data.head? = some c := by
  unfold startsWithStr at h
  cases hpd : p.data with
  | nil => rw [hpd] at hp; exact absurd hp (by simp)
  | cons x xs =>
    rw [hpd] at hp h
    cases had : a.data with
    | nil => rw [had] at h; exact absurd h (by simp [isPre])
    | cons b bs =>
      rw [had] at h
      simp [isPre] at h
      simp at hp
      simp only [List.head?_cons, Option.some.injEq]
      exact h.1.symm.trans hp

theorem sw_false_of_head (a p : String) (c d : Char)
    (ha : a.data.head? = some c) (hp : p.data.head? = some d) (hne : c ≠ d) :
    startsWithStr a p = false := by
  cases hsw : startsWithStr a p with
  | false => rfl
  | true =>
    have := head?_of_sw a p d hsw hp
    rw [ha] at this
    exact absurd (Option.some.inj this) hne

theorem ne_of_head (a b : String) (c d : Char)
    (ha : a.data.head? = some c) (hb : b.data.head? = some d) (hne : c ≠ d) :
    a ≠ b := by
  intro h
  rw [h, hb] at ha
  exact hne (Option.some.inj ha).symm

theorem head?_append_lit (p n : String) (c : Char) (hp : p.data.head? = some c) :
    (p ++ n).data.head? = some c := by
  rw [String.data_append]
  cases hpd : p.data with
  | nil => rw [hpd] at hp; exact absurd hp (by simp)
  | cons x xs => rw [hpd] at hp; simpa using hp


/-! ## Cover-record and store lemmas -/

theorem objGet_map_update_ne (r : CoverRecord) (k v m : String) (hm : m ≠ k) :
    objGet (r.map (fun p => if p.1 = k then (k, v) else p)) m = objGet r m := by
  induction r with
  | nil => rfl
  | cons p ps ih =>
    by_cases hp : p.1 = k
    · simp only [List.map_cons, if_pos hp]
      rw [objGet, objGet, List.find?_cons_of_neg _ (by simp; exact fun h => hm h.symm),
        List.find?_cons_of_neg _ (by simp [hp]; exact fun h => hm h.symm)]
      exact ih
    · simp only [List.map_cons, if_neg hp]
      by_cases hpm : p.1 = m
      · rw [objGet, objGet, List.find?_cons_of_pos _ (by simp [hpm]),
          List.find?_cons_of_pos _ (by simp [hpm])]
      · rw [objGet, objGet, List.find?_cons_of_neg _ (by simp [hpm]),
          List.find?_cons_of_neg _ (by simp [hpm])]
        exact ih

theorem objGet_map_update_self (r : CoverRecord) (k v : String)
    (h : (r.find? (fun p => p.1 = k)).isSome = true) :
    objGet (r.map (fun p => if p.1 = k then (k, v) else p)) k = some v := by
  induction r with
  | nil => simp at h
  | cons p ps ih =>
    by_cases hp : p.1 = k
    · simp only [List.map_cons, if_pos hp]
      rw [objGet, List.find?_cons_of_pos _ (by simp)]
      rfl
    · rw [List.find?_cons_of_neg _ (by simp [hp])] at h
      simp only [List.map_cons, if_neg hp]
      rw [objGet, List.find?_cons_of_neg _ (by simp [hp])]
      exact ih h

theorem objGet_append_one (r : CoverRecord) (k v m : String) :
    objGet (r ++ [(k, v)]) m =
      if (objGet r m).isSome then objGet r m else if k = m then some v else none := by
  rw [objGet, List.find?_append]
  by_cases h : (r.find? (fun p => p.1 = m)).isSome
  · obtain ⟨p, hp⟩ := Option.isSome_iff_exists.mp h
    rw [objGet, hp]
    simp [hp]
  · rw [Option.not_isSome_iff_eq_none] at h
    rw [objGet, h]
    by_cases hk : k = m
    · simp [h, List.find?_cons, hk]
    · simp [h, List.find?_cons, hk]

theorem objGet_objSet_self (r : CoverRecord) (k v : String) :
    objGet (objSet r k v) k = some v := by
  unfold objSet
  by_cases h : (r.find? (fun p => p.1 = k)).isSome
  · rw [if_pos h]
    exact objGet_map_update_self r k v h
  · rw [if_neg h, objGet_append_one]
    have h2 : objGet r k = none := by
      rw [objGet]
      rw [Option.not_isSome_iff_eq_none] at h
      rw [h]
      rfl
    simp [h2]

theorem objGet_objSet_ne (r : CoverRecord) (k v m : String) (hm : m ≠ k) :
    objGet (objSet r k v) m = objGet r m := by
  unfold objSet
  by_cases h : (r.find? (fun p => p.1 = k)).isSome
  · rw [if_pos h]
    exact objGet_map_update_ne r k v m hm
  · rw [if_neg h, objGet_append_one]
    by_cases hg : (objGet r m).isSome
    · simp [hg]
    · have : ¬(k = m) := fun hh => hm hh.symm
      simp [hg, this]
      rw [Option.not_isSome_iff_eq_none] at hg
      exact hg.symm

theorem objGet_objDelete_ne (r : CoverRecord) (k m : String) (hm : m ≠ k) :
    objGet (objDelete r k) m = objGet r m := by
  unfold objDelete
  induction r with
  | nil => rfl
  | cons p ps ih =>
    by_cases hp : p.1 = k
    · rw [List.filter_cons_of_neg (by simp [hp])]
      have h2 : objGet (p :: ps) m = objGet ps m := by
        rw [objGet, List.find?_cons_of_neg _ (by simp [hp]; exact fun hh => hm hh.symm)]
        rfl
      rw [h2]
      exact ih
    · rw [List.filter_cons_of_pos (by simp [hp])]
      by_cases hpm : p.1 = m
      · rw [objGet, objGet, List.find?_cons_of_pos _ (by simp [hpm]),
          List.find?_cons_of_pos _ (by simp [hpm])]
      · rw [objGet, objGet, List.find?_cons_of_neg _ (by simp [hpm]),
          List.find?_cons_of_neg _ (by simp [hpm])]
        exact ih

theorem mem_objKeys_iff_find? (r : CoverRecord) (k : String) :
    k ∈ objKeys r ↔ (r.find? (fun p => p.1 = k)).isSome = true := by
  rw [List.find?_isSome, objKeys]
  simp only [List.mem_map, decide_eq_true_eq]

theorem objKeys_objSet_present (r : CoverRecord) (k v : String)
    (h : (r.find? (fun p => p.1 = k)).isSome = true) :
    objKeys (objSet r k v) = objKeys r := by
  unfold objSet
  rw [if_pos h, objKeys, objKeys, List.map_map]
  apply List.map_congr_left
  intro p _
  by_cases hp : p.1 = k
  · simp [hp]
  · simp [hp]

theorem objKeys_objSet_absent (r : CoverRecord) (k v : String)
    (h : ¬((r.find? (fun p => p.1 = k)).isSome = true)) :
    objKeys (objSet r k v) = objKeys r ++ [k] := by
  unfold objSet
  rw [if_neg h, objKeys, objKeys, List.map_append]
  simp

theorem objKeys_objSet_nodup (r : CoverRecord) (k v : String)
    (h : (objKeys r).Nodup) : (objKeys (objSet r k v)).Nodup := by
  by_cases hf : (r.find? (fun p => p.1 = k)).isSome = true
  · rw [objKeys_objSet_present r k v hf]
    exact h
  · rw [objKeys_objSet_absent r k v hf]
    have hk : k ∉ objKeys r := fun hm => hf ((mem_objKeys_iff_find? r k).mp hm)
    rw [List.nodup_append]
    refine ⟨h, List.nodup_singleton k, fun a ha hb => hk ?_⟩
    rw [List.mem_singleton] at hb
    exact hb ▸ ha

theorem count_objKeys_objSet (r : CoverRecord) (k v : String)
    (h : (objKeys r).Nodup) : (objKeys (objSet r k v)).count k = 1 := by
  have hmem : k ∈ objKeys (objSet r k v) := by
    by_cases hf : (r.find? (fun p => p.1 = k)).isSome = true
    · rw [objKeys_objSet_present r k v hf]
      exact (mem_objKeys_iff_find? r k).mpr hf
    · rw [objKeys_objSet_absent r k v hf]
      simp
  exact List.count_eq_one_of_mem (objKeys_objSet_nodup r k v h) hmem

/-! ## Store lemmas -/

theorem getCovers_putCovers_self (s : BotState) (u : Nat) (r : CoverRecord) :
    getCovers (putCovers s u r) u = r := by
  simp [getCovers, putCovers]

theorem covers_putCovers_ne (s : BotState) (u : Nat) (r : CoverRecord) (k : String)
    (h : k ≠ ukey u) : (putCovers s u r).covers k = s.covers k := by
  simp [putCovers, h]

theorem getStats_putStats_self (s : BotState) (u : Nat) (st : Stats) :
    getStats (putStats s u st) u = st := by
  simp [getStats, putStats]

/-! ## ackCount kit -/

@[simp]
theorem isAckOf_sendMessage (cid : String) (c : Nat) (t : String) (o : MsgOpts) :
    isAckOf cid (Effect.sendMessage c t o) = false := rfl

@[simp]
theorem isAckOf_editMessageText (cid : String) (c m : Nat) (t : String) (o : MsgOpts) :
    isAckOf cid (Effect.editMessageText c m t o) = false := rfl

@[simp]
theorem isAckOf_deleteMessage (cid : String) (c m : Nat) :
    isAckOf cid (Effect.deleteMessage c m) = false := rfl

@[simp]
theorem isAckOf_sendPhoto (cid : String) (c : Nat) (p : PhotoPayload)
    (cap pm : Option String) (rt : Option Nat) :
    isAckOf cid (Effect.sendPhoto c p cap pm rt) = false := rfl

@[simp]
theorem isAckOf_sendVideo (cid : String) (c : Nat) (v : String)
    (cov cap : Option String) : isAckOf cid (Effect.sendVideo c v cov cap) = false := rfl

@[simp]
theorem isAckOf_answer (cid c : String) (t : Option String) (b : Bool) :
    isAckOf cid (Effect.answerCallbackQuery c t b) = (c == cid) := rfl

@[simp]
theorem ackCount_nil (cid : String) : ackCount [] cid = 0 := rfl

@[simp]
theorem ackCount_cons (e : Effect) (l : List Effect) (cid : String) :
    ackCount (e :: l) cid = ackCount l cid + (if isAckOf cid e then 1 else 0) := by
  simp [ackCount, List.countP_cons]

@[simp]
theorem ackCount_append (l₁ l₂ : List Effect) (cid : String) :
    ackCount (l₁ ++ l₂) cid = ackCount l₁ cid + ackCount l₂ cid := by
  simp [ackCount, List.countP_append]

theorem ackCount_pasteEffects (w : World) (c m : Nat) (cid : String) :
    ackCount (pasteEffects w c m) cid = 0 := by
  unfold pasteEffects
  cases w.pastePrimary <;> cases w.pasteFallback <;> simp

theorem ackCount_extractMediaRest (w : World) (c m vm : Nat) (v : Video) (cid : String) :
    ackCount (extractMediaRest w c m vm v) cid = 0 := by
  unfold extractMediaRest
  cases v.cover with
  | none =>
    cases v.thumbnail with
    | none => simp
    | some th => cases hgf : w.getFile th.file_id <;> simp [hgf]
  | some l =>
    cases v.thumbnail with
    | none => by_cases hl : l.length > 0 <;> simp [hl]
    | some th =>
      by_cases hl : l.length > 0 <;> cases hgf : w.getFile th.file_id <;> simp [hl, hgf]

/-! ## Claim C1 -/

/-- Claim C1 (counterexample): the claim states that every inbound
callback event is acknowledged exactly once, including every
unrecognized action token.  At this concrete input — an unrecognized
token on a message that does reply to a video-bearing message — the
callback handler falls through every dispatch branch and issues zero
acknowledgements. -/
theorem ack_missing_for_unrecognized_on_video :
    ackCount
      (handleCallback ⟨"tok", fun _ => none, none, none, 99⟩
        ⟨"cbid", 1, "some_unknown_action",
          ⟨7, 2, some { message_id := 5, video := some { file_id := "V1" } }⟩⟩
        ⟨fun _ => none, fun _ => none, [], fun _ => none⟩).2 "cbid" = 0 := by
  decide

set_option maxHeartbeats 1000000 in
/-- Claim C1 (amended): every callback whose action token is one the
handler recognizes is acknowledged exactly once, as is every callback
whose message does not reply to a video-bearing message (the
missing-video error branch); a callback with an unrecognized action
token whose message does reply to a video is never acknowledged. -/
theorem ack_count_characterization (w : World) (s : BotState) (cb : CallbackQuery) :
    ackCount (handleCallback w cb s).2 cb.id =
      cond (!recognizedAction cb.data && hasVideoReply cb.message) 0 1 := by
  unfold handleCallback
  dsimp only
  split
  case isTrue hfam1 =>
    have hrec : recognizedAction cb.data = true := by
      unfold recognizedAction
      simp only [Bool.or_eq_true_iff, decide_eq_true_eq, beq_iff_eq] at hfam1 ⊢
      tauto
    simp only [hrec, Bool.not_true, Bool.false_and, cond_false]
    repeat' split
    all_goals simp
  case isFalse hfam1 =>
    split
    case isTrue hfam2 =>
      have hrec : recognizedAction cb.data = true := by
        unfold recognizedAction
        simp only [Bool.or_eq_true_iff, decide_eq_true_eq, beq_iff_eq] at hfam2 ⊢
        tauto
      simp only [hrec, Bool.not_true, Bool.false_and, cond_false]
      repeat' split
      all_goals simp [ackCount_pasteEffects]
    case isFalse hfam2 =>
      cases hrep : cb.message.reply_to_message with
      | none =>
        simp [hrep, hasVideoReply]
      | some r =>
        cases hvid : r.video with
        | none =>
          simp [hrep, hvid, hasVideoReply]
        | some video =>
          have hvr : hasVideoReply cb.message = true := by
            simp [hasVideoReply, hrep, hvid]
          simp only [hrep, hvid, hvr, Bool.and_true]
          by_cases h5 : cb.data = "extract_metadata"
          · simp only [h5]
            simp [show recognizedAction ("extract_metadata") = true by decide]
          · by_cases h6 : cb.data = "extract_media"
            · simp only [h6]
              simp [show recognizedAction ("extract_media") = true by decide, h5,
                ackCount_extractMediaRest]
            · by_cases h7 : cb.data = "set_cover"
              · simp only [h7]
                simp [show recognizedAction ("set_cover") = true by decide, h5, h6]
              · by_cases h8 : cb.data = "use_saved_cover"
                · simp only [h8]
                  simp only [show recognizedAction ("use_saved_cover") = true by decide,
                    Bool.not_true, Bool.false_and, cond_false, reduceIte, h5, h6, h7]
                  repeat' split
                  all_goals simp_all
                · by_cases h9 : startsWithStr cb.data ("apply_cover_") = true
                  · have hrec : recognizedAction cb.data = true := by
                      simp [recognizedAction, h9]
                    simp only [h5, h6, h7, h8, h9, hrec, Bool.not_true, Bool.false_and,
                      cond_false, reduceIte]
                    repeat' split
                    all_goals simp_all
                  · have hrec : recognizedAction cb.data = false := by
                      unfold recognizedAction
                      simp only [Bool.or_eq_true_iff, decide_eq_true_eq, beq_iff_eq,
                        not_or] at hfam1 hfam2
                      obtain ⟨⟨⟨hn1, hn2⟩, hn3⟩, hn4⟩ := hfam1
                      obtain ⟨⟨⟨hn5, hn6⟩, hn7⟩, hn8⟩ := hfam2
                      simp [hn1, hn2, hn3, hn4, hn5, hn6, hn7, hn8, h5, h6, h7, h8, h9]
                    simp [h5, h6, h7, h8, h9, hrec]

/-! ## Claim C10 -/

/-- Claim C10: a send_cover callback naming a cover absent from the
user's record sends no photo and no notice — it leaves the whole state
unchanged — and still acknowledges the button press exactly once. -/
theorem send_cover_missing_silent (w : World) (s : BotState) (cb : CallbackQuery)
    (n : String) (hd : cb.data = "send_cover_" ++ n)
    (hmiss : objGet (getCovers s cb.from_id) n = none) :
    (handleCallback w cb s).1 = s ∧
    (handleCallback w cb s).2 = [Effect.answerCallbackQuery cb.id none false] := by
  unfold handleCallback
  dsimp only
  rw [hd]
  simp [startsWithStr_append_self, dropPre_append, hmiss, truthyStr]

/-- Witness for C10 at a concrete input. -/
theorem send_cover_missing_silent_witness :
    (handleCallback ⟨"tok", fun _ => none, none, none, 99⟩
        ⟨"cbid", 1, "send_cover_x", ⟨7, 2, none⟩⟩
        ⟨fun _ => none, fun _ => none, [], fun _ => none⟩).1 =
      (⟨fun _ => none, fun _ => none, [], fun _ => none⟩ : BotState) ∧
    (handleCallback ⟨"tok", fun _ => none, none, none, 99⟩
        ⟨"cbid", 1, "send_cover_x", ⟨7, 2, none⟩⟩
        ⟨fun _ => none, fun _ => none, [], fun _ => none⟩).2 =
      [Effect.answerCallbackQuery "cbid" none false] :=
  send_cover_missing_silent _ _ _ "x" rfl rfl

/-! ## Claim C4 -/

/-- Claim C4: an apply_cover callback naming a cover absent from the
user's record answers with the no-longer-exists alert and performs no
mutation at all — in particular no write to the counters store. -/
theorem apply_cover_missing_no_mutation (w : World) (s : BotState)
    (cb : CallbackQuery) (n : String) (r : ReplyMsg) (v : Video)
    (hd : cb.data = "apply_cover_" ++ n)
    (hrep : cb.message.reply_to_message = some r) (hvid : r.video = some v)
    (hmiss : objGet (getCovers s cb.from_id) n = none) :
    (handleCallback w cb s).1 = s ∧
    (handleCallback w cb s).2 =
      [Effect.answerCallbackQuery cb.id (some coverDeletedAlertText) true] := by
  have e1 : startsWithStr ("apply_cover_" ++ n) ("send_cover_") = false := rfl
  have e2 : startsWithStr ("apply_cover_" ++ n) ("confirm_delete_") = false := rfl
  have e3 : startsWithStr ("apply_cover_" ++ n) ("delete_cover_") = false := rfl
  have e4 : decide (("apply_cover_" ++ n) = "cancel_delete") = false := rfl
  have e5 : decide (("apply_cover_" ++ n) = "paste_image") = false := rfl
  have e6 : decide (("apply_cover_" ++ n) = "save_cover") = false := rfl
  have e7 : decide (("apply_cover_" ++ n) = "save_default") = false := rfl
  have e8 : decide (("apply_cover_" ++ n) = "save_with_name") = false := rfl
  have e9 : (("apply_cover_" ++ n) = "extract_metadata") = False := by
    simp only [eq_iff_iff, iff_false]
    exact of_decide_eq_false rfl
  have e10 : (("apply_cover_" ++ n) = "extract_media") = False := by
    simp only [eq_iff_iff, iff_false]
    exact of_decide_eq_false rfl
  have e11 : (("apply_cover_" ++ n) = "set_cover") = False := by
    simp only [eq_iff_iff, iff_false]
    exact of_decide_eq_false rfl
  have e12 : (("apply_cover_" ++ n) = "use_saved_cover") = False := by
    simp only [eq_iff_iff, iff_false]
    exact of_decide_eq_false rfl
  unfold handleCallback
  dsimp only
  rw [hd]
  simp only [e1, e2, e3, e4, e5, e6, e7, e8, Bool.or_self, Bool.or_false, Bool.false_or,
    if_false, Bool.false_eq_true, reduceIte, hrep, hvid]
  simp [e9, e10, e11, e12, startsWithStr_append_self, dropPre_append, hmiss, truthyStr]

/-- Witness for C4 at a concrete input. -/
theorem apply_cover_missing_no_mutation_witness :
    (handleCallback ⟨"tok", fun _ => none, none, none, 99⟩
        ⟨"cbid", 1, "apply_cover_x",
          ⟨7, 2, some { message_id := 5, video := some { file_id := "V1" } }⟩⟩
        ⟨fun _ => none, fun _ => none, [], fun _ => none⟩).1 =
      (⟨fun _ => none, fun _ => none, [], fun _ => none⟩ : BotState) ∧
    (handleCallback ⟨"tok", fun _ => none, none, none, 99⟩
        ⟨"cbid", 1, "apply_cover_x",
          ⟨7, 2, some { message_id := 5, video := some { file_id := "V1" } }⟩⟩
        ⟨fun _ => none, fun _ => none, [], fun _ => none⟩).2 =
      [Effect.answerCallbackQuery "cbid" (some coverDeletedAlertText) true] :=
  apply_cover_missing_no_mutation _ _ _ "x" { message_id := 5, video := some { file_id := "V1" } }
    { file_id := "V1" } rfl rfl rfl rfl

/-! ## Claim C3 -/

/-- Claim C3: for a use_saved_cover callback on a message replying to a
video: with zero saved covers the handler answers with an alert and
mutates nothing; with exactly one it applies that cover immediately
(sends the video with it) and increments covers_changed by one, leaving
everything else unchanged; with two or more it presents a menu with
exactly one button per saved cover, whose tokens are apply_cover_
followed by the cover name, and mutates nothing. -/
theorem use_saved_cover_cardinality (w : World) (s : BotState) (cb : CallbackQuery)
    (r : ReplyMsg) (v : Video)
    (hd : cb.data = "use_saved_cover")
    (hrep : cb.message.reply_to_message = some r) (hvid : r.video = some v) :
    (objKeys (getCovers s cb.from_id) = [] →
      (handleCallback w cb s).1 = s ∧
      (handleCallback w cb s).2 =
        [Effect.answerCallbackQuery cb.id (some noCoversAlertText) true]) ∧
    (∀ n, objKeys (getCovers s cb.from_id) = [n] →
      (handleCallback w cb s).1 =
        putStats s cb.from_id
          ⟨(getStats s cb.from_id).videos_processed,
           (getStats s cb.from_id).covers_changed + 1⟩ ∧
      (handleCallback w cb s).2 =
        [Effect.answerCallbackQuery cb.id none false,
         Effect.editMessageText cb.message.chat_id cb.message.message_id
           ("Applying your saved cover...") {},
         Effect.sendVideo cb.message.chat_id v.file_id
           (objGet (getCovers s cb.from_id) n) r.caption,
         Effect.deleteMessage cb.message.chat_id cb.message.message_id]) ∧
    (2 ≤ (objKeys (getCovers s cb.from_id)).length →
      (handleCallback w cb s).1 = s ∧
      (handleCallback w cb s).2 =
        [Effect.editMessageText cb.message.chat_id cb.message.message_id
           ("Please choose a cover to apply:")
           { reply_markup := some ((objKeys (getCovers s cb.from_id)).map
               (fun name => [⟨coverDisplay name, BtnAct.cb ("apply_cover_" ++ name)⟩])) },
         Effect.answerCallbackQuery cb.id none false]) := by
  have g1 : startsWithStr ("use_saved_cover") ("send_cover_") = false := rfl
  have g2 : startsWithStr ("use_saved_cover") ("confirm_delete_") = false := rfl
  have g3 : startsWithStr ("use_saved_cover") ("delete_cover_") = false := rfl
  have g4 : startsWithStr ("use_saved_cover") ("apply_cover_") = false := rfl
  unfold handleCallback
  dsimp only
  rw [hd]
  simp only [hrep, hvid, g1, g2, g3, g4]
  refine ⟨?_, ?_, ?_⟩
  · intro h0
    simp only [h0]
    simp
  · intro n h1
    simp only [h1]
    simp
  · intro h2
    cases hk : objKeys (getCovers s cb.from_id) with
    | nil => rw [hk] at h2; simp at h2
    | cons a t =>
      cases t with
      | nil => rw [hk] at h2; simp at h2
      | cons b t2 =>
        simp only [hk]
        simp

/-- Witness for C3 at a concrete input with exactly one saved cover. -/
theorem use_saved_cover_cardinality_witness :
    (handleCallback ⟨"tok", fun _ => none, none, none, 99⟩
        ⟨"cbid", 1, "use_saved_cover",
          ⟨7, 2, some { message_id := 5, video := some { file_id := "V1" } }⟩⟩
        ⟨fun k => if k = "1" then some [("a", "F")] else none,
         fun _ => none, [], fun _ => none⟩).1 =
      putStats
        ⟨fun k => if k = "1" then some [("a", "F")] else none,
         fun _ => none, [], fun _ => none⟩ 1 ⟨0, 1⟩ ∧
    (handleCallback ⟨"tok", fun _ => none, none, none, 99⟩
        ⟨"cbid", 1, "use_saved_cover",
          ⟨7, 2, some { message_id := 5, video := some { file_id := "V1" } }⟩⟩
        ⟨fun k => if k = "1" then some [("a", "F")] else none,
         fun _ => none, [], fun _ => none⟩).2 =
      [Effect.answerCallbackQuery "cbid" none false,
       Effect.editMessageText 2 7 ("Applying your saved cover...") {},
       Effect.sendVideo 2 "V1" (some "F") none,
       Effect.deleteMessage 2 7] :=
  (use_saved_cover_cardinality ⟨"tok", fun _ => none, none, none, 99⟩
      ⟨fun k => if k = "1" then some [("a", "F")] else none,
       fun _ => none, [], fun _ => none⟩
      ⟨"cbid", 1, "use_saved_cover",
        ⟨7, 2, some { message_id := 5, video := some { file_id := "V1" } }⟩⟩
      { message_id := 5, video := some { file_id := "V1" } } { file_id := "V1" }
      rfl rfl rfl).2.1 "a" rfl

/-! ## Claim C2 -/

/-- Claim C2 (counterexample): the claim quantifies over every text
message whose first token is /save_cover without a photo reply, but the
awaiting-cover-name flow check runs before command parsing.  At this
concrete input — the user is in the awaiting-name state — the text
/save_cover is taken verbatim as a cover name: the Cover Record gains an
entry, the flow-state entry is cleared, and the only effect is the edit
of the prompting message, not the usage-help message. -/
theorem save_cover_usage_counterexample :
    objGet (getCovers (handleMessage ⟨"tok", fun _ => none, none, none, 99⟩
        { message_id := 3, chat_id := 7, from_id := 1, text := some ("/save_cover") }
        ⟨fun _ => none, fun _ => none, [],
         fun k => if k = 1 then some (FlowState.awaitingCoverName ("F") 10) else none⟩).1 1)
      ("/save_cover") = some ("F") ∧
    (handleMessage ⟨"tok", fun _ => none, none, none, 99⟩
        { message_id := 3, chat_id := 7, from_id := 1, text := some ("/save_cover") }
        ⟨fun _ => none, fun _ => none, [],
         fun k => if k = 1 then some (FlowState.awaitingCoverName ("F") 10) else none⟩).1.userState 1
      = none ∧
    (handleMessage ⟨"tok", fun _ => none, none, none, 99⟩
        { message_id := 3, chat_id := 7, from_id := 1, text := some ("/save_cover") }
        ⟨fun _ => none, fun _ => none, [],
         fun k => if k = 1 then some (FlowState.awaitingCoverName ("F") 10) else none⟩).2 =
      [Effect.editMessageText 7 10 (coverSavedText ("/save_cover")) {}] := by
  refine ⟨by decide, ?_, by decide⟩
  decide

/-- Claim C2 (amended): for a text message whose first token is
/save_cover but which does not reply to a photo-bearing message, from a
user who is not in the awaiting-cover-name flow state, the handler sends
exactly the usage-help message and changes nothing: the covers store,
the counters store, the user registry and the flow-state map are all
left as they were. -/
theorem save_cover_no_photo_usage_help (w : World) (s : BotState) (msg : Message)
    (htext : truthyStr msg.text = true)
    (hflow : isAwaitName (s.userState msg.from_id) = false)
    (hcmd : (jsSplitSpace (jsTrim (msg.text.getD ""))).headD "" = "/save_cover")
    (hrep : photoReply msg.reply_to_message = false) :
    (handleMessage w msg s).1 = s ∧
    (handleMessage w msg s).2 =
      [Effect.sendMessage msg.chat_id saveCoverUsageText { parse_mode := some ("HTML") }] := by
  unfold handleMessage
  dsimp only
  rw [htext]
  cases ha : s.userState msg.from_id with
  | none =>
    simp only [ha, hcmd]
    cases hr : msg.reply_to_message with
    | none => simp
    | some r =>
      cases hp : r.photo with
      | none => simp [hp]
      | some l =>
        rw [hr] at hrep
        simp [photoReply, hp] at hrep
  | some f =>
    cases f with
    | awaitingCoverName fid mid =>
      rw [ha] at hflow
      exact absurd hflow (by simp [isAwaitName])
    | awaitingNewCover vfid cap mid =>
      simp only [ha, hcmd]
      cases hr : msg.reply_to_message with
      | none => simp
      | some r =>
        cases hp : r.photo with
        | none => simp [hp]
        | some l =>
          rw [hr] at hrep
          simp [photoReply, hp] at hrep

/-- Witness for C2 (amended) at a concrete input. -/
theorem save_cover_no_photo_usage_help_witness :
    (handleMessage ⟨"tok", fun _ => none, none, none, 99⟩
        { message_id := 3, chat_id := 7, from_id := 1, text := some ("/save_cover") }
        ⟨fun _ => none, fun _ => none, [], fun _ => none⟩).1 =
      (⟨fun _ => none, fun _ => none, [], fun _ => none⟩ : BotState) ∧
    (handleMessage ⟨"tok", fun _ => none, none, none, 99⟩
        { message_id := 3, chat_id := 7, from_id := 1, text := some ("/save_cover") }
        ⟨fun _ => none, fun _ => none, [], fun _ => none⟩).2 =
      [Effect.sendMessage 7 saveCoverUsageText { parse_mode := some ("HTML") }] :=
  save_cover_no_photo_usage_help ⟨"tok", fun _ => none, none, none, 99⟩
    ⟨fun _ => none, fun _ => none, [], fun _ => none⟩
    { message_id := 3, chat_id := 7, from_id := 1, text := some ("/save_cover") }
    rfl rfl rfl rfl

/-! ## Claim C8 -/

/-- Claim C8 (counterexample): the claim says the text itself, verbatim,
becomes the cover name; the code trims it first.  At this concrete input
with surrounding whitespace, the record holds the trimmed name and not
the verbatim text. -/
theorem awaiting_name_verbatim_counterexample :
    objGet (getCovers (handleMessage ⟨"tok", fun _ => none, none, none, 99⟩
        { message_id := 3, chat_id := 7, from_id := 1, text := some ("  myname  ") }
        ⟨fun _ => none, fun _ => none, [],
         fun k => if k = 1 then some (FlowState.awaitingCoverName ("F") 10) else none⟩).1 1)
      ("  myname  ") = none ∧
    objGet (getCovers (handleMessage ⟨"tok", fun _ => none, none, none, 99⟩
        { message_id := 3, chat_id := 7, from_id := 1, text := some ("  myname  ") }
        ⟨fun _ => none, fun _ => none, [],
         fun k => if k = 1 then some (FlowState.awaitingCoverName ("F") 10) else none⟩).1 1)
      ("myname") = some ("F") := by
  refine ⟨by decide, by decide⟩

/-- Claim C8 (amended): for a text message from a user whose flow state
is awaiting a cover name, the whitespace-trimmed text (not
command-parsed, even if it looks like a recognized command) becomes the
cover name: the held media reference is written under it, the flow-state
entry is cleared, the prompting message is edited to confirm, and
nothing else happens — no command branch runs. -/
theorem awaiting_name_completion (w : World) (s : BotState) (msg : Message)
    (fid : String) (mid : Nat)
    (htext : truthyStr msg.text = true)
    (hflow : s.userState msg.from_id = some (FlowState.awaitingCoverName fid mid)) :
    (handleMessage w msg s).1 =
      delUState (putCovers s msg.from_id
        (objSet (getCovers s msg.from_id) (jsTrim (msg.text.getD "")) fid)) msg.from_id ∧
    (handleMessage w msg s).2 =
      [Effect.editMessageText msg.chat_id mid
        (coverSavedText (jsTrim (msg.text.getD ""))) {}] := by
  unfold handleMessage
  dsimp only
  rw [htext]
  simp only [hflow]
  exact ⟨rfl, rfl⟩

/-- Witness for C8 (amended) at a concrete input whose text looks like a
recognized command. -/
theorem awaiting_name_completion_witness :
    (handleMessage ⟨"tok", fun _ => none, none, none, 99⟩
        { message_id := 3, chat_id := 7, from_id := 1, text := some ("/stats") }
        ⟨fun _ => none, fun _ => none, [],
         fun k => if k = 1 then some (FlowState.awaitingCoverName ("F") 10) else none⟩).1 =
      delUState (putCovers
        ⟨fun _ => none, fun _ => none, [],
         fun k => if k = 1 then some (FlowState.awaitingCoverName ("F") 10) else none⟩
        1 [("/stats", "F")]) 1 ∧
    (handleMessage ⟨"tok", fun _ => none, none, none, 99⟩
        { message_id := 3, chat_id := 7, from_id := 1, text := some ("/stats") }
        ⟨fun _ => none, fun _ => none, [],
         fun k => if k = 1 then some (FlowState.awaitingCoverName ("F") 10) else none⟩).2 =
      [Effect.editMessageText 7 10 (coverSavedText ("/stats")) {}] :=
  awaiting_name_completion ⟨"tok", fun _ => none, none, none, 99⟩
    ⟨fun _ => none, fun _ => none, [],
     fun k => if k = 1 then some (FlowState.awaitingCoverName ("F") 10) else none⟩
    { message_id := 3, chat_id := 7, from_id := 1, text := some ("/stats") }
    "F" 10 rfl rfl

/-- Evaluation of the save-cover command branch when the reply-to-photo
precondition holds and the user is not in the awaiting-name flow. -/
theorem handleMessage_save_cover (w : World) (s : BotState) (msg : Message)
    (rest : List String) (r : ReplyMsg) (pl : List PhotoSize)
    (htext : truthyStr msg.text = true)
    (hflow : isAwaitName (s.userState msg.from_id) = false)
    (hsplit : jsSplitSpace (jsTrim (msg.text.getD "")) = "/save_cover" :: rest)
    (hrep : msg.reply_to_message = some r) (hph : r.photo = some pl) :
    handleMessage w msg s =
      (putCovers s msg.from_id
        (objSet (getCovers s msg.from_id) (saveName rest) (lastPhoto pl).file_id),
       [Effect.sendMessage msg.chat_id
         (if saveName rest = DEFAULT_COVER_NAME then defaultSavedText
          else coverSavedText (saveName rest))
         { reply_to_message_id := some msg.message_id }]) := by
  unfold handleMessage
  dsimp only
  rw [htext]
  cases ha : s.userState msg.from_id with
  | none =>
    simp only [ha, hsplit]
    simp [hrep, hph, doSaveCover]
  | some f =>
    cases f with
    | awaitingCoverName fid mid =>
      rw [ha] at hflow
      exact absurd hflow (by simp [isAwaitName])
    | awaitingNewCover vfid cap mid =>
      simp only [ha, hsplit]
      simp [hrep, hph, doSaveCover]

/-- Evaluation of the /covers listing with an empty cover record. -/
theorem handleMessage_covers_empty (w : World) (s : BotState) (msg : Message)
    (htext : truthyStr msg.text = true)
    (hflow : isAwaitName (s.userState msg.from_id) = false)
    (hsplit : jsSplitSpace (jsTrim (msg.text.getD "")) = ["/covers"])
    (hkeys : objKeys (getCovers s msg.from_id) = []) :
    handleMessage w msg s =
      (s, [Effect.sendMessage msg.chat_id noSavedCoversText
            { reply_to_message_id := some msg.message_id }]) := by
  unfold handleMessage
  dsimp only
  rw [htext]
  cases ha : s.userState msg.from_id with
  | none =>
    simp only [ha, hsplit]
    simp [hkeys]
  | some f =>
    cases f with
    | awaitingCoverName fid mid =>
      rw [ha] at hflow
      exact absurd hflow (by simp [isAwaitName])
    | awaitingNewCover vfid cap mid =>
      simp only [ha, hsplit]
      simp [hkeys]

/-- Evaluation of the /covers listing with a non-empty cover record. -/
theorem handleMessage_covers_nonempty (w : World) (s : BotState) (msg : Message)
    (htext : truthyStr msg.text = true)
    (hflow : isAwaitName (s.userState msg.from_id) = false)
    (hsplit : jsSplitSpace (jsTrim (msg.text.getD "")) = ["/covers"])
    (hkeys : objKeys (getCovers s msg.from_id) ≠ []) :
    handleMessage w msg s =
      (s, [Effect.sendMessage msg.chat_id ("Manage your saved covers:")
            { reply_to_message_id := some msg.message_id,
              reply_markup := some ((objKeys (getCovers s msg.from_id)).map coversMenuRow) }]) := by
  unfold handleMessage
  dsimp only
  rw [htext]
  cases ha : s.userState msg.from_id with
  | none =>
    simp only [ha, hsplit]
    simp [List.length_eq_zero, hkeys]
  | some f =>
    cases f with
    | awaitingCoverName fid mid =>
      rw [ha] at hflow
      exact absurd hflow (by simp [isAwaitName])
    | awaitingNewCover vfid cap mid =>
      simp only [ha, hsplit]
      simp [List.length_eq_zero, hkeys]

/-- Evaluation of the delete_cover callback when the entry is present. -/
theorem handleCallback_delete_cover_present (w : World) (s : BotState)
    (cb : CallbackQuery) (n : String)
    (hd : cb.data = "delete_cover_" ++ n)
    (hpres : truthyStr (objGet (getCovers s cb.from_id) n) = true) :
    handleCallback w cb s =
      (putCovers s cb.from_id (objDelete (getCovers s cb.from_id) n),
       [Effect.editMessageText cb.message.chat_id cb.message.message_id
          (deletedCoverText n) {},
        Effect.answerCallbackQuery cb.id none false]) := by
  have e1 : startsWithStr ("delete_cover_" ++ n) ("send_cover_") = false := rfl
  have e2 : startsWithStr ("delete_cover_" ++ n) ("confirm_delete_") = false := rfl
  unfold handleCallback
  dsimp only
  rw [hd]
  simp [e1, e2, startsWithStr_append_self, dropPre_append, hpres]



/-! ## Claim C5 -/

/-- Claim C5: after a successful save-cover command for name N from a
user with no prior covers, the listing shows exactly one entry named N
(one menu row, for N); after a subsequent delete_cover_N callback the
record is empty and the listing reports no saved covers. -/
theorem cover_round_trip (w : World) (s0 : BotState) (u : Nat) (N fid : String)
    (msg1 msg2 msg3 : Message) (cb : CallbackQuery) (r1 : ReplyMsg) (pl : List PhotoSize)
    (hcov : s0.covers (ukey u) = none)
    (hflow : isAwaitName (s0.userState u) = false)
    (hfid : fid ≠ "")
    (hm1u : msg1.from_id = u) (htext1 : truthyStr msg1.text = true)
    (hsplit1 : jsSplitSpace (jsTrim (msg1.text.getD "")) = ["/save_cover", N])
    (hN : N ≠ "")
    (hrep1 : msg1.reply_to_message = some r1) (hph1 : r1.photo = some pl)
    (hplfid : (lastPhoto pl).file_id = fid)
    (hm2u : msg2.from_id = u) (htext2 : truthyStr msg2.text = true)
    (hsplit2 : jsSplitSpace (jsTrim (msg2.text.getD "")) = ["/covers"])
    (hcbu : cb.from_id = u) (hcbd : cb.data = "delete_cover_" ++ N)
    (hm3u : msg3.from_id = u) (htext3 : truthyStr msg3.text = true)
    (hsplit3 : jsSplitSpace (jsTrim (msg3.text.getD "")) = ["/covers"]) :
    objKeys (getCovers ((handleMessage w msg1 s0).1) u) = [N] ∧
    (handleMessage w msg2 (handleMessage w msg1 s0).1).2 =
      [Effect.sendMessage msg2.chat_id ("Manage your saved covers:")
        { reply_to_message_id := some msg2.message_id,
          reply_markup := some [coversMenuRow N] }] ∧
    getCovers ((handleCallback w cb (handleMessage w msg1 s0).1).1) u = [] ∧
    (handleMessage w msg3 ((handleCallback w cb (handleMessage w msg1 s0).1).1)).2 =
      [Effect.sendMessage msg3.chat_id noSavedCoversText
        { reply_to_message_id := some msg3.message_id }] := by
  have hname : saveName [N] = N := by simp [saveName, hN]
  have hstep1 := handleMessage_save_cover w s0 msg1 [N] r1 pl htext1
    (by rw [hm1u]; exact hflow) hsplit1 hrep1 hph1
  rw [hname, hplfid, hm1u] at hstep1
  have hr0 : getCovers s0 u = [] := by simp [getCovers, hcov]
  have hset : objSet (getCovers s0 u) N fid = [(N, fid)] := by
    rw [hr0]
    simp [objSet]
  rw [hset] at hstep1
  set s1 := (handleMessage w msg1 s0).1 with hs1
  have hs1v : s1 = putCovers s0 u [(N, fid)] := by rw [hs1, hstep1]
  have hc1 : getCovers s1 u = [(N, fid)] := by
    rw [hs1v]
    exact getCovers_putCovers_self s0 u [(N, fid)]
  have hk1 : objKeys (getCovers s1 u) = [N] := by rw [hc1]; rfl
  refine ⟨hk1, ?_, ?_, ?_⟩
  · have := handleMessage_covers_nonempty w s1 msg2 htext2
      (by rw [hm2u, hs1v]; exact hflow) hsplit2 (by rw [hm2u, hk1]; simp)
    rw [this]
    rw [hm2u, hk1]
    simp
  · have hpres : truthyStr (objGet (getCovers s1 cb.from_id) N) = true := by
      rw [hcbu, hc1]
      simp [objGet, truthyStr, hfid]
    have hdel := handleCallback_delete_cover_present w s1 cb N hcbd hpres
    rw [hdel]
    rw [hcbu, hc1]
    have : objDelete [(N, fid)] N = [] := by simp [objDelete]
    rw [this]
    exact getCovers_putCovers_self s1 u []
  · have hpres : truthyStr (objGet (getCovers s1 cb.from_id) N) = true := by
      rw [hcbu, hc1]
      simp [objGet, truthyStr, hfid]
    have hdel := handleCallback_delete_cover_present w s1 cb N hcbd hpres
    rw [hdel]
    set s2 := putCovers s1 cb.from_id (objDelete (getCovers s1 cb.from_id) N) with hs2
    have hc2 : getCovers s2 u = [] := by
      rw [hs2, hcbu, hc1]
      have : objDelete [(N, fid)] N = [] := by simp [objDelete]
      rw [this]
      exact getCovers_putCovers_self s1 u []
    have hfl2 : isAwaitName (s2.userState u) = false := by
      rw [hs2, hcbu, hs1v]
      exact hflow
    have := handleMessage_covers_empty w s2 msg3 htext3
      (by rw [hm3u]; exact hfl2) hsplit3 (by rw [hm3u, hc2]; rfl)
    rw [this]



/-- Witness for C5 at a concrete input. -/
theorem cover_round_trip_witness :
    objKeys (getCovers ((handleMessage ⟨"tok", fun _ => none, none, none, 99⟩
      { message_id := 3, chat_id := 7, from_id := 1, text := some ("/save_cover mycov"),
        reply_to_message := some { message_id := 2, photo := some [⟨"P1", 0, 0, none⟩] } }
      ⟨fun _ => none, fun _ => none, [], fun _ => none⟩).1) 1) = ["mycov"] ∧
    (handleMessage ⟨"tok", fun _ => none, none, none, 99⟩
      { message_id := 4, chat_id := 7, from_id := 1, text := some ("/covers") }
      (handleMessage ⟨"tok", fun _ => none, none, none, 99⟩
        { message_id := 3, chat_id := 7, from_id := 1, text := some ("/save_cover mycov"),
          reply_to_message := some { message_id := 2, photo := some [⟨"P1", 0, 0, none⟩] } }
        ⟨fun _ => none, fun _ => none, [], fun _ => none⟩).1).2 =
      [Effect.sendMessage 7 ("Manage your saved covers:")
        { reply_to_message_id := some 4,
          reply_markup := some [coversMenuRow ("mycov")] }] ∧
    getCovers ((handleCallback ⟨"tok", fun _ => none, none, none, 99⟩
      ⟨"cbid", 1, "delete_cover_mycov", ⟨9, 7, none⟩⟩
      (handleMessage ⟨"tok", fun _ => none, none, none, 99⟩
        { message_id := 3, chat_id := 7, from_id := 1, text := some ("/save_cover mycov"),
          reply_to_message := some { message_id := 2, photo := some [⟨"P1", 0, 0, none⟩] } }
        ⟨fun _ => none, fun _ => none, [], fun _ => none⟩).1).1) 1 = [] ∧
    (handleMessage ⟨"tok", fun _ => none, none, none, 99⟩
      { message_id := 4, chat_id := 7, from_id := 1, text := some ("/covers") }
      ((handleCallback ⟨"tok", fun _ => none, none, none, 99⟩
        ⟨"cbid", 1, "delete_cover_mycov", ⟨9, 7, none⟩⟩
        (handleMessage ⟨"tok", fun _ => none, none, none, 99⟩
          { message_id := 3, chat_id := 7, from_id := 1, text := some ("/save_cover mycov"),
            reply_to_message := some { message_id := 2, photo := some [⟨"P1", 0, 0, none⟩] } }
          ⟨fun _ => none, fun _ => none, [], fun _ => none⟩).1).1)).2 =
      [Effect.sendMessage 7 noSavedCoversText { reply_to_message_id := some 4 }] :=
  cover_round_trip ⟨"tok", fun _ => none, none, none, 99⟩
    ⟨fun _ => none, fun _ => none, [], fun _ => none⟩ 1 "mycov" "P1"
    { message_id := 3, chat_id := 7, from_id := 1, text := some ("/save_cover mycov"),
      reply_to_message := some { message_id := 2, photo := some [⟨"P1", 0, 0, none⟩] } }
    { message_id := 4, chat_id := 7, from_id := 1, text := some ("/covers") }
    { message_id := 4, chat_id := 7, from_id := 1, text := some ("/covers") }
    ⟨"cbid", 1, "delete_cover_mycov", ⟨9, 7, none⟩⟩
    { message_id := 2, photo := some [⟨"P1", 0, 0, none⟩] } [⟨"P1", 0, 0, none⟩]
    rfl rfl (by decide) rfl rfl (by decide) (by decide) rfl rfl rfl
    rfl rfl (by decide) rfl rfl rfl rfl (by decide)

/-! ## Claim C6 -/

/-- Claim C6: a save-cover command with no name argument and one whose
explicit argument is the reserved default name write the same slot of
the Cover Record; performed in sequence the second overwrites the first,
leaving exactly one default entry holding the second media reference. -/
theorem default_name_aliasing (w : World) (s0 : BotState) (u : Nat)
    (msg1 msg2 : Message) (r1 r2 : ReplyMsg) (pl1 pl2 : List PhotoSize)
    (hnodup : (objKeys (getCovers s0 u)).Nodup)
    (hflow : isAwaitName (s0.userState u) = false)
    (hm1u : msg1.from_id = u) (htext1 : truthyStr msg1.text = true)
    (hsplit1 : jsSplitSpace (jsTrim (msg1.text.getD "")) = ["/save_cover"])
    (hrep1 : msg1.reply_to_message = some r1) (hph1 : r1.photo = some pl1)
    (hm2u : msg2.from_id = u) (htext2 : truthyStr msg2.text = true)
    (hsplit2 : jsSplitSpace (jsTrim (msg2.text.getD "")) =
      ["/save_cover", DEFAULT_COVER_NAME])
    (hrep2 : msg2.reply_to_message = some r2) (hph2 : r2.photo = some pl2) :
    objGet (getCovers ((handleMessage w msg1 s0).1) u) DEFAULT_COVER_NAME =
      some (lastPhoto pl1).file_id ∧
    objGet (getCovers ((handleMessage w msg2 (handleMessage w msg1 s0).1).1) u)
      DEFAULT_COVER_NAME = some (lastPhoto pl2).file_id ∧
    (objKeys (getCovers ((handleMessage w msg2 (handleMessage w msg1 s0).1).1) u)).count
      DEFAULT_COVER_NAME = 1 := by
  have hn1 : saveName ([] : List String) = DEFAULT_COVER_NAME := rfl
  have hn2 : saveName [DEFAULT_COVER_NAME] = DEFAULT_COVER_NAME := by decide
  have h1 := handleMessage_save_cover w s0 msg1 [] r1 pl1 htext1
    (by rw [hm1u]; exact hflow) hsplit1 hrep1 hph1
  rw [hn1, hm1u] at h1
  set s1 := (handleMessage w msg1 s0).1 with hs1
  have hs1v : s1 = putCovers s0 u
      (objSet (getCovers s0 u) DEFAULT_COVER_NAME (lastPhoto pl1).file_id) := by
    rw [hs1, h1]
  have hc1 : getCovers s1 u =
      objSet (getCovers s0 u) DEFAULT_COVER_NAME (lastPhoto pl1).file_id := by
    rw [hs1v]
    exact getCovers_putCovers_self _ _ _
  have h2 := handleMessage_save_cover w s1 msg2 [DEFAULT_COVER_NAME] r2 pl2 htext2
    (by rw [hm2u, hs1v]; exact hflow) hsplit2 hrep2 hph2
  rw [hn2, hm2u] at h2
  have hc2 : getCovers ((handleMessage w msg2 s1).1) u =
      objSet (getCovers s1 u) DEFAULT_COVER_NAME (lastPhoto pl2).file_id := by
    rw [h2]
    exact getCovers_putCovers_self _ _ _
  refine ⟨?_, ?_, ?_⟩
  · rw [hc1]
    exact objGet_objSet_self _ _ _
  · rw [hc2]
    exact objGet_objSet_self _ _ _
  · rw [hc2, hc1]
    exact count_objKeys_objSet _ _ _ (objKeys_objSet_nodup _ _ _ hnodup)

/-- Witness for C6 at a concrete input. -/
theorem default_name_aliasing_witness :
    objGet (getCovers ((handleMessage ⟨"tok", fun _ => none, none, none, 99⟩
      { message_id := 3, chat_id := 7, from_id := 1, text := some ("/save_cover"),
        reply_to_message := some { message_id := 2, photo := some [⟨"P1", 0, 0, none⟩] } }
      ⟨fun _ => none, fun _ => none, [], fun _ => none⟩).1) 1) DEFAULT_COVER_NAME =
      some ("P1") ∧
    objGet (getCovers ((handleMessage ⟨"tok", fun _ => none, none, none, 99⟩
      { message_id := 4, chat_id := 7, from_id := 1,
        text := some ("/save_cover __default__"),
        reply_to_message := some { message_id := 2, photo := some [⟨"P2", 0, 0, none⟩] } }
      (handleMessage ⟨"tok", fun _ => none, none, none, 99⟩
        { message_id := 3, chat_id := 7, from_id := 1, text := some ("/save_cover"),
          reply_to_message := some { message_id := 2, photo := some [⟨"P1", 0, 0, none⟩] } }
        ⟨fun _ => none, fun _ => none, [], fun _ => none⟩).1).1) 1) DEFAULT_COVER_NAME =
      some ("P2") ∧
    (objKeys (getCovers ((handleMessage ⟨"tok", fun _ => none, none, none, 99⟩
      { message_id := 4, chat_id := 7, from_id := 1,
        text := some ("/save_cover __default__"),
        reply_to_message := some { message_id := 2, photo := some [⟨"P2", 0, 0, none⟩] } }
      (handleMessage ⟨"tok", fun _ => none, none, none, 99⟩
        { message_id := 3, chat_id := 7, from_id := 1, text := some ("/save_cover"),
          reply_to_message := some { message_id := 2, photo := some [⟨"P1", 0, 0, none⟩] } }
        ⟨fun _ => none, fun _ => none, [], fun _ => none⟩).1).1) 1)).count
      DEFAULT_COVER_NAME = 1 :=
  default_name_aliasing ⟨"tok", fun _ => none, none, none, 99⟩
    ⟨fun _ => none, fun _ => none, [], fun _ => none⟩ 1
    { message_id := 3, chat_id := 7, from_id := 1, text := some ("/save_cover"),
      reply_to_message := some { message_id := 2, photo := some [⟨"P1", 0, 0, none⟩] } }
    { message_id := 4, chat_id := 7, from_id := 1,
      text := some ("/save_cover __default__"),
      reply_to_message := some { message_id := 2, photo := some [⟨"P2", 0, 0, none⟩] } }
    { message_id := 2, photo := some [⟨"P1", 0, 0, none⟩] }
    { message_id := 2, photo := some [⟨"P2", 0, 0, none⟩] }
    [⟨"P1", 0, 0, none⟩] [⟨"P2", 0, 0, none⟩]
    (by decide) rfl rfl (by decide) (by decide) rfl rfl
    rfl (by decide) (by decide) rfl rfl

theorem isPre_eq_isPrefixOf (as bs : List Char) : isPre as bs = as.isPrefixOf bs := by
  induction as generalizing bs with
  | nil => cases bs <;> rfl
  | cons a at' ih =>
    cases bs with
    | nil => rfl
    | cons b bt => simp [isPre, List.isPrefixOf, ih]

/-- A string that starts with `p` is `p` followed by the part after it. -/
theorem append_dropPre_of_sw (a p : String) (h : startsWithStr a p = true) :
    a = p ++ dropPre a p := by
  unfold startsWithStr at h
  rw [isPre_eq_isPrefixOf, List.isPrefixOf_iff_prefix] at h
  obtain ⟨t, ht⟩ := h
  unfold dropPre
  cases a with
  | mk ad =>
    cases p with
    | mk pd =>
      simp only at ht
      subst ht
      show String.mk (pd ++ t) = String.mk (pd ++ (pd ++ t).drop pd.length)
      rw [List.drop_left]

theorem jsSplitSpace_ne_nil (s : String) : jsSplitSpace s ≠ [] := by
  unfold jsSplitSpace
  suffices h : ∀ (l acc : List Char), splitSpAux l acc ≠ [] by
    intro hmap
    exact h s.data [] (List.map_eq_nil_iff.mp hmap)
  intro l
  induction l with
  | nil => intro acc; simp [splitSpAux]
  | cons c rest ih =>
    intro acc
    by_cases hc : (c == ' ') = true <;> simp [splitSpAux, hc, ih]

/-- Full evaluation of the awaiting-cover-name completion branch. -/
theorem handleMessage_awaiting_name (w : World) (s : BotState) (msg : Message)
    (fid : String) (mid : Nat)
    (htext : truthyStr msg.text = true)
    (hflow : s.userState msg.from_id = some (FlowState.awaitingCoverName fid mid)) :
    handleMessage w msg s =
      (delUState (putCovers s msg.from_id
         (objSet (getCovers s msg.from_id) (jsTrim (msg.text.getD "")) fid)) msg.from_id,
       [Effect.editMessageText msg.chat_id mid
         (coverSavedText (jsTrim (msg.text.getD ""))) {}]) := by
  unfold handleMessage
  dsimp only
  rw [htext]
  simp only [hflow, if_true]

/-- Evaluation of the delete_cover callback when the entry is absent. -/
theorem handleCallback_delete_cover_absent (w : World) (s : BotState)
    (cb : CallbackQuery) (n : String)
    (hd : cb.data = "delete_cover_" ++ n)
    (habs : truthyStr (objGet (getCovers s cb.from_id) n) = false) :
    handleCallback w cb s =
      (s, [Effect.editMessageText cb.message.chat_id cb.message.message_id
            ("Could not find that cover.") {},
           Effect.answerCallbackQuery cb.id none false]) := by
  have e1 : startsWithStr ("delete_cover_" ++ n) ("send_cover_") = false := rfl
  have e2 : startsWithStr ("delete_cover_" ++ n) ("confirm_delete_") = false := rfl
  unfold handleCallback
  dsimp only
  rw [hd]
  simp [e1, e2, startsWithStr_append_self, dropPre_append, habs]

/-- Evaluation of the save_default callback with a photo reply. -/
theorem handleCallback_save_default (w : World) (s : BotState)
    (cb : CallbackQuery) (r : ReplyMsg) (pl : List PhotoSize)
    (hd : cb.data = "save_default")
    (hrep : cb.message.reply_to_message = some r) (hph : r.photo = some pl) :
    handleCallback w cb s =
      (putCovers s cb.from_id
        (objSet (getCovers s cb.from_id) DEFAULT_COVER_NAME (lastPhoto pl).file_id),
       [Effect.editMessageText cb.message.chat_id cb.message.message_id
          defaultSavedText {},
        Effect.answerCallbackQuery cb.id none false]) := by
  have g1 : startsWithStr ("save_default") ("send_cover_") = false := rfl
  have g2 : startsWithStr ("save_default") ("confirm_delete_") = false := rfl
  have g3 : startsWithStr ("save_default") ("delete_cover_") = false := rfl
  unfold handleCallback
  dsimp only
  rw [hd]
  simp only [g1, g2, g3, hrep, hph]
  simp



/-! ## Claim C9 -/

/-- Claim C9: every operation that mutates a user's Cover Record (the
save-cover command, the awaiting-name completion, the save_default
callback and the delete_cover callback, as classified by covMut) changes
at most the entry for its one target name: every other name in that
user's record, and every other key of the covers store, is unchanged. -/
theorem cover_mutation_frame (w : World) (s : BotState) (e : Update) (tgt : String)
    (h : covMut s e = some tgt) (m : String) (hm : m ≠ tgt)
    (k : String) (hk : k ≠ ukey (updUser e)) :
    objGet (getCovers ((handleUpdate w e s).1) (updUser e)) m =
      objGet (getCovers s (updUser e)) m ∧
    ((handleUpdate w e s).1).covers k = s.covers k := by
  cases e with
  | message msg =>
    have hud : updUser (Update.message msg) = msg.from_id := rfl
    have hhu : handleUpdate w (Update.message msg) s = handleMessage w msg s := rfl
    rw [hud] at hk ⊢
    rw [hhu]
    unfold covMut at h
    dsimp only at h
    by_cases htext : truthyStr msg.text = true
    case neg =>
      rw [if_neg htext] at h
      exact absurd h (by simp)
    case pos =>
      rw [if_pos htext] at h
      cases hus : s.userState msg.from_id with
      | some f =>
        cases f with
        | awaitingCoverName fid mid =>
          simp only [hus] at h
          have htgt : jsTrim (msg.text.getD "") = tgt := Option.some.inj h
          rw [handleMessage_awaiting_name w s msg fid mid htext hus]
          constructor
          · show objGet (getCovers (putCovers s msg.from_id
              (objSet (getCovers s msg.from_id) (jsTrim (msg.text.getD "")) fid))
              msg.from_id) m = _
            rw [getCovers_putCovers_self, htgt]
            exact objGet_objSet_ne _ _ _ _ hm
          · show (putCovers s msg.from_id _).covers k = s.covers k
            exact covers_putCovers_ne _ _ _ _ hk
        | awaitingNewCover vfid cap mid =>
          simp only [hus] at h
          by_cases hcmd : (jsSplitSpace (jsTrim (msg.text.getD ""))).headD "" = "/save_cover"
          case neg =>
            rw [if_neg hcmd] at h
            exact absurd h (by simp)
          case pos =>
            rw [if_pos hcmd] at h
            by_cases hpr : photoReply msg.reply_to_message = true
            case neg =>
              rw [if_neg hpr] at h
              exact absurd h (by simp)
            case pos =>
              rw [if_pos hpr] at h
              have htgt : saveName (jsSplitSpace (jsTrim (msg.text.getD ""))).tail = tgt :=
                Option.some.inj h
              cases hrep : msg.reply_to_message with
              | none => rw [hrep] at hpr; exact absurd hpr (by simp [photoReply])
              | some r =>
                cases hph : r.photo with
                | none =>
                  rw [hrep] at hpr
                  simp [photoReply, hph] at hpr
                | some pl =>
                  cases hp : jsSplitSpace (jsTrim (msg.text.getD "")) with
                  | nil => exact absurd hp (jsSplitSpace_ne_nil _)
                  | cons a t =>
                    rw [hp] at hcmd
                    simp only [List.headD_cons] at hcmd
                    subst hcmd
                    have hflow2 : isAwaitName (s.userState msg.from_id) = false := by
                      simp [isAwaitName, hus]
                    rw [handleMessage_save_cover w s msg t r pl htext hflow2 hp hrep hph]
                    rw [hp] at htgt
                    simp only [List.tail_cons] at htgt
                    constructor
                    · show objGet (getCovers (putCovers s msg.from_id
                        (objSet (getCovers s msg.from_id) (saveName t)
                          (lastPhoto pl).file_id)) msg.from_id) m = _
                      rw [getCovers_putCovers_self, htgt]
                      exact objGet_objSet_ne _ _ _ _ hm
                    · exact covers_putCovers_ne _ _ _ _ hk
      | none =>
        simp only [hus] at h
        by_cases hcmd : (jsSplitSpace (jsTrim (msg.text.getD ""))).headD "" = "/save_cover"
        case neg =>
          rw [if_neg hcmd] at h
          exact absurd h (by simp)
        case pos =>
          rw [if_pos hcmd] at h
          by_cases hpr : photoReply msg.reply_to_message = true
          case neg =>
            rw [if_neg hpr] at h
            exact absurd h (by simp)
          case pos =>
            rw [if_pos hpr] at h
            have htgt : saveName (jsSplitSpace (jsTrim (msg.text.getD ""))).tail = tgt :=
              Option.some.inj h
            cases hrep : msg.reply_to_message with
            | none => rw [hrep] at hpr; exact absurd hpr (by simp [photoReply])
            | some r =>
              cases hph : r.photo with
              | none =>
                rw [hrep] at hpr
                simp [photoReply, hph] at hpr
              | some pl =>
                cases hp : jsSplitSpace (jsTrim (msg.text.getD "")) with
                | nil => exact absurd hp (jsSplitSpace_ne_nil _)
                | cons a t =>
                  rw [hp] at hcmd
                  simp only [List.headD_cons] at hcmd
                  subst hcmd
                  have hflow2 : isAwaitName (s.userState msg.from_id) = false := by
                    simp [isAwaitName, hus]
                  rw [handleMessage_save_cover w s msg t r pl htext hflow2 hp hrep hph]
                  rw [hp] at htgt
                  simp only [List.tail_cons] at htgt
                  constructor
                  · show objGet (getCovers (putCovers s msg.from_id
                      (objSet (getCovers s msg.from_id) (saveName t)
                        (lastPhoto pl).file_id)) msg.from_id) m = _
                    rw [getCovers_putCovers_self, htgt]
                    exact objGet_objSet_ne _ _ _ _ hm
                  · exact covers_putCovers_ne _ _ _ _ hk
  | callback cb =>
    have hud : updUser (Update.callback cb) = cb.from_id := rfl
    have hhu : handleUpdate w (Update.callback cb) s = handleCallback w cb s := rfl
    rw [hud] at hk ⊢
    rw [hhu]
    unfold covMut at h
    dsimp only at h
    by_cases hsw : startsWithStr cb.data ("delete_cover_") = true
    case pos =>
      rw [if_pos hsw] at h
      have htgt : dropPre cb.data ("delete_cover_") = tgt := Option.some.inj h
      have hd : cb.data = "delete_cover_" ++ dropPre cb.data ("delete_cover_") :=
        append_dropPre_of_sw _ _ hsw
      by_cases hpres : truthyStr (objGet (getCovers s cb.from_id)
          (dropPre cb.data ("delete_cover_"))) = true
      case pos =>
        rw [handleCallback_delete_cover_present w s cb _ hd hpres]
        constructor
        · show objGet (getCovers (putCovers s cb.from_id
            (objDelete (getCovers s cb.from_id) (dropPre cb.data ("delete_cover_"))))
            cb.from_id) m = _
          rw [getCovers_putCovers_self, htgt]
          exact objGet_objDelete_ne _ _ _ hm
        · exact covers_putCovers_ne _ _ _ _ hk
      case neg =>
        rw [handleCallback_delete_cover_absent w s cb _ hd
          (Bool.not_eq_true _ ▸ hpres)]
        exact ⟨rfl, rfl⟩
    case neg =>
      rw [if_neg hsw] at h
      by_cases hsd : cb.data = "save_default"
      case neg =>
        rw [if_neg hsd] at h
        exact absurd h (by simp)
      case pos =>
        rw [if_pos hsd] at h
        by_cases hpr : photoReply cb.message.reply_to_message = true
        case neg =>
          rw [if_neg hpr] at h
          exact absurd h (by simp)
        case pos =>
          rw [if_pos hpr] at h
          have htgt : DEFAULT_COVER_NAME = tgt := Option.some.inj h
          cases hrep : cb.message.reply_to_message with
          | none => rw [hrep] at hpr; exact absurd hpr (by simp [photoReply])
          | some r =>
            cases hph : r.photo with
            | none =>
              rw [hrep] at hpr
              simp [photoReply, hph] at hpr
            | some pl =>
              rw [handleCallback_save_default w s cb r pl hsd hrep hph]
              constructor
              · show objGet (getCovers (putCovers s cb.from_id
                  (objSet (getCovers s cb.from_id) DEFAULT_COVER_NAME
                    (lastPhoto pl).file_id)) cb.from_id) m = _
                rw [getCovers_putCovers_self, htgt]
                exact objGet_objSet_ne _ _ _ _ hm
              · exact covers_putCovers_ne _ _ _ _ hk



/-- Witness for C9 at a concrete input. -/
theorem cover_mutation_frame_witness :
    objGet (getCovers ((handleUpdate ⟨"tok", fun _ => none, none, none, 99⟩
      (Update.callback ⟨"cbid", 1, "delete_cover_a", ⟨9, 7, none⟩⟩)
      ⟨fun k => if k = "1" then some [("a", "F"), ("b", "G")] else none,
       fun _ => none, [], fun _ => none⟩).1)
      (updUser (Update.callback ⟨"cbid", 1, "delete_cover_a", ⟨9, 7, none⟩⟩))) "b" =
    objGet (getCovers (⟨fun k => if k = "1" then some [("a", "F"), ("b", "G")] else none,
       fun _ => none, [], fun _ => none⟩ : BotState)
      (updUser (Update.callback ⟨"cbid", 1, "delete_cover_a", ⟨9, 7, none⟩⟩))) "b" ∧
    ((handleUpdate ⟨"tok", fun _ => none, none, none, 99⟩
      (Update.callback ⟨"cbid", 1, "delete_cover_a", ⟨9, 7, none⟩⟩)
      ⟨fun k => if k = "1" then some [("a", "F"), ("b", "G")] else none,
       fun _ => none, [], fun _ => none⟩).1).covers "2" =
    (⟨fun k => if k = "1" then some [("a", "F"), ("b", "G")] else none,
       fun _ => none, [], fun _ => none⟩ : BotState).covers "2" :=
  cover_mutation_frame ⟨"tok", fun _ => none, none, none, 99⟩
    ⟨fun k => if k = "1" then some [("a", "F"), ("b", "G")] else none,
     fun _ => none, [], fun _ => none⟩
    (Update.callback ⟨"cbid", 1, "delete_cover_a", ⟨9, 7, none⟩⟩) "a"
    (by decide) "b" (by decide) "2" (by decide)

/-- Evaluation of the inbound-video branch of the message handler. -/
theorem handleMessage_video (w : World) (s : BotState) (msg : Message)
    (htext : truthyStr msg.text = false) (hvid : msg.video.isSome = true) :
    handleMessage w msg s =
      (putStats s msg.from_id
        ⟨(getStats s msg.from_id).videos_processed + 1,
         (getStats s msg.from_id).covers_changed⟩,
       [Effect.sendMessage msg.chat_id ("What would you like to do with this video?")
         { reply_to_message_id := some msg.message_id,
           reply_markup := some videoMenuButtons }]) := by
  unfold handleMessage
  dsimp only
  rw [htext, hvid]
  simp

/-- Evaluation of a cover-applying callback: the single-cover
use_saved_cover path or apply_cover on a present name increments
covers_changed by exactly one and changes nothing else. -/
theorem apply_cb_step (w : World) (s : BotState) (cb : CallbackQuery)
    (hvr : hasVideoReply cb.message = true)
    (happ : applyPred (getCovers s cb.from_id) cb.data) :
    (handleCallback w cb s).1 =
      putStats s cb.from_id
        ⟨(getStats s cb.from_id).videos_processed,
         (getStats s cb.from_id).covers_changed + 1⟩ := by
  unfold hasVideoReply at hvr
  cases hrep : cb.message.reply_to_message with
  | none => rw [hrep] at hvr; simp at hvr
  | some r =>
    rw [hrep] at hvr
    dsimp only at hvr
    cases hvid : r.video with
    | none => rw [hvid] at hvr; simp at hvr
    | some v =>
      rcases happ with ⟨hd, n, hk⟩ | ⟨n, hd, htr⟩
      · have g1 : startsWithStr ("use_saved_cover") ("send_cover_") = false := rfl
        have g2 : startsWithStr ("use_saved_cover") ("confirm_delete_") = false := rfl
        have g3 : startsWithStr ("use_saved_cover") ("delete_cover_") = false := rfl
        have g4 : startsWithStr ("use_saved_cover") ("apply_cover_") = false := rfl
        unfold handleCallback
        dsimp only
        rw [hd]
        simp only [hrep, hvid, g1, g2, g3, g4, hk]
        simp
      · have e1 : startsWithStr ("apply_cover_" ++ n) ("send_cover_") = false := rfl
        have e2 : startsWithStr ("apply_cover_" ++ n) ("confirm_delete_") = false := rfl
        have e3 : startsWithStr ("apply_cover_" ++ n) ("delete_cover_") = false := rfl
        have e4 : decide (("apply_cover_" ++ n) = "cancel_delete") = false := rfl
        have e5 : decide (("apply_cover_" ++ n) = "paste_image") = false := rfl
        have e6 : decide (("apply_cover_" ++ n) = "save_cover") = false := rfl
        have e7 : decide (("apply_cover_" ++ n) = "save_default") = false := rfl
        have e8 : decide (("apply_cover_" ++ n) = "save_with_name") = false := rfl
        have e9 : (("apply_cover_" ++ n) = "extract_metadata") = False := by
          simp only [eq_iff_iff, iff_false]
          exact of_decide_eq_false rfl
        have e10 : (("apply_cover_" ++ n) = "extract_media") = False := by
          simp only [eq_iff_iff, iff_false]
          exact of_decide_eq_false rfl
        have e11 : (("apply_cover_" ++ n) = "set_cover") = False := by
          simp only [eq_iff_iff, iff_false]
          exact of_decide_eq_false rfl
        have e12 : (("apply_cover_" ++ n) = "use_saved_cover") = False := by
          simp only [eq_iff_iff, iff_false]
          exact of_decide_eq_false rfl
        unfold handleCallback
        dsimp only
        rw [hd]
        simp only [e1, e2, e3, e4, e5, e6, e7, e8, Bool.or_self, Bool.or_false,
          Bool.false_or, Bool.false_eq_true, reduceIte, hrep, hvid]
        simp [e9, e10, e11, e12, startsWithStr_append_self, dropPre_append, htr]

theorem runMsgs_videos (w : World) (u : Nat) (ms : List Message) :
    ∀ s : BotState,
      (∀ m ∈ ms, m.from_id = u ∧ truthyStr m.text = false ∧ m.video.isSome = true) →
      getStats (runMsgs w ms s) u =
        ⟨(getStats s u).videos_processed + ms.length,
         (getStats s u).covers_changed⟩ := by
  induction ms with
  | nil =>
    intro s _
    show getStats s u = ⟨(getStats s u).videos_processed + 0, (getStats s u).covers_changed⟩
    rw [Nat.add_zero]
  | cons msg rest ih =>
    intro s h
    have hm := h msg (List.mem_cons_self _ _)
    have h2 := ih ((handleMessage w msg s).1)
      (fun m hm2 => h m (List.mem_cons_of_mem _ hm2))
    show getStats (runMsgs w rest ((handleMessage w msg s).1)) u = _
    rw [h2, handleMessage_video w s msg hm.2.1 hm.2.2]
    dsimp only
    rw [hm.1, getStats_putStats_self]
    simp only [Stats.mk.injEq, List.length_cons]
    refine ⟨?_, trivial⟩
    omega

theorem runCbs_apply (w : World) (u : Nat) (cbs : List CallbackQuery) :
    ∀ s : BotState,
      (∀ cb ∈ cbs, cb.from_id = u ∧ hasVideoReply cb.message = true ∧
        applyPred (getCovers s u) cb.data) →
      getStats (runCbs w cbs s) u =
        ⟨(getStats s u).videos_processed,
         (getStats s u).covers_changed + cbs.length⟩ := by
  induction cbs with
  | nil =>
    intro s _
    show getStats s u = ⟨(getStats s u).videos_processed, (getStats s u).covers_changed + 0⟩
    rw [Nat.add_zero]
  | cons cb rest ih =>
    intro s h
    have hc := h cb (List.mem_cons_self _ _)
    have happ : applyPred (getCovers s cb.from_id) cb.data := hc.1 ▸ hc.2.2
    have hstep := apply_cb_step w s cb hc.2.1 happ
    have hrest : ∀ cb2 ∈ rest, cb2.from_id = u ∧ hasVideoReply cb2.message = true ∧
        applyPred (getCovers ((handleCallback w cb s).1) u) cb2.data := by
      intro cb2 hm2
      refine ⟨(h cb2 (List.mem_cons_of_mem _ hm2)).1,
        (h cb2 (List.mem_cons_of_mem _ hm2)).2.1, ?_⟩
      rw [hstep]
      exact (h cb2 (List.mem_cons_of_mem _ hm2)).2.2
    have h2 := ih ((handleCallback w cb s).1) hrest
    show getStats (runCbs w rest ((handleCallback w cb s).1)) u = _
    rw [h2, hstep, hc.1, getStats_putStats_self]
    simp only [Stats.mk.injEq, List.length_cons]
    refine ⟨trivial, ?_⟩
    omega



/-! ## Claim C7 -/

/-- Claim C7: from a user with no counters record, sequentially handling
N video messages leaves videos_processed equal to N; and sequentially
applying a saved cover M times (single-cover use_saved_cover or
apply_cover on a present name) increases covers_changed by exactly M. -/
theorem counter_monotonicity (w : World) (u : Nat) (s0 t0 : BotState)
    (ms : List Message) (cbs : List CallbackQuery)
    (hstats : s0.stats (ukey u) = none)
    (hms : ∀ m ∈ ms, m.from_id = u ∧ truthyStr m.text = false ∧ m.video.isSome = true)
    (hcbs : ∀ cb ∈ cbs, cb.from_id = u ∧ hasVideoReply cb.message = true ∧
      applyPred (getCovers t0 u) cb.data) :
    (getStats (runMsgs w ms s0) u).videos_processed = ms.length ∧
    (getStats (runCbs w cbs t0) u).covers_changed =
      (getStats t0 u).covers_changed + cbs.length := by
  constructor
  · rw [runMsgs_videos w u ms s0 hms]
    have h0 : getStats s0 u = ⟨0, 0⟩ := by simp [getStats, hstats]
    rw [h0]
    simp
  · rw [runCbs_apply w u cbs t0 hcbs]

/-- Witness for C7 at a concrete input: one video message, one
single-cover apply. -/
theorem counter_monotonicity_witness :
    (getStats (runMsgs ⟨"tok", fun _ => none, none, none, 99⟩
      [{ message_id := 3, chat_id := 7, from_id := 1,
         video := some { file_id := "V1" } }]
      ⟨fun _ => none, fun _ => none, [], fun _ => none⟩) 1).videos_processed = 1 ∧
    (getStats (runCbs ⟨"tok", fun _ => none, none, none, 99⟩
      [⟨"cbid", 1, "use_saved_cover",
        ⟨9, 7, some { message_id := 5, video := some { file_id := "V1" } }⟩⟩]
      ⟨fun k => if k = "1" then some [("a", "F")] else none,
       fun _ => none, [], fun _ => none⟩) 1).covers_changed = 1 :=
  counter_monotonicity ⟨"tok", fun _ => none, none, none, 99⟩ 1
    ⟨fun _ => none, fun _ => none, [], fun _ => none⟩
    ⟨fun k => if k = "1" then some [("a", "F")] else none,
     fun _ => none, [], fun _ => none⟩
    [{ message_id := 3, chat_id := 7, from_id := 1,
       video := some { file_id := "V1" } }]
    [⟨"cbid", 1, "use_saved_cover",
      ⟨9, 7, some { message_id := 5, video := some { file_id := "V1" } }⟩⟩]
    rfl
    (by
      intro m hm
      rw [List.mem_singleton] at hm
      subst hm
      exact ⟨rfl, rfl, rfl⟩)
    (by
      intro cb hc
      rw [List.mem_singleton] at hc
      subst hc
      exact ⟨rfl, rfl, Or.inl ⟨rfl, ⟨"a", rfl⟩⟩⟩)

end ThumbBot
